import Mathlib

/-!
Verification development for the sports-ai-companion repository
(`src/web-version/app.py`, `src/web-version/models.py`).

The Python program is shallowly embedded: JSON values become an inductive
type `JVal`, Python dicts become ordered association lists, the external
collaborators (Anthropic model calls, ESPN REST endpoints, RSS feeds,
matplotlib rendering, the espn_api League client, the YouTube client and
the wall clock) become an explicit `Env` record, and every fallible piece
of Python (a `KeyError`, a `StopIteration`, an uncaught `TypeError`)
becomes an `Option`.  Numbers are embedded as `Rat` (Python ints and the
handful of float literals); byte-level float behaviour is never relied on
by any theorem below.
-/

namespace SportsAI

/-- Membership of a character in the Python `\s` whitespace class. -/
def isPyWs (c : Char) : Bool :=
  c = ' ' || c = '\t' || c = '\n' || c = '\r' || c = (Char.ofNat 11) || c = (Char.ofNat 12)

/-- Whether `p` is a leading segment of `l` (character lists). -/
def leadSeg : List Char → List Char → Bool
  | [], _ => true
  | _ :: _, [] => false
  | a :: as, b :: bs => a = b && leadSeg as bs

/-- Whether `p` occurs contiguously somewhere inside `l`. -/
def subSeg (p : List Char) : List Char → Bool
  | [] => leadSeg p []
  | c :: rest => leadSeg p (c :: rest) || subSeg p rest

/-- Python `needle in hay` on strings: contiguous substring containment. -/
def hasSubstr (hay needle : String) : Bool :=
  subSeg needle.toList hay.toList

/-- Python `str.split()` (split on whitespace runs, dropping empties). -/
def pyWords (s : String) : List String :=
  ((s.toList.splitOnP isPyWs).map (fun l => String.mk l)).filter (fun w => w ≠ "")

/-- Python `str.lower()` via a character map (kernel-computable; ASCII,
matching CPython for the ASCII keyword/team/name strings involved). -/
def pyLower (s : String) : String :=
  String.mk (s.toList.map Char.toLower)

/-- Python `str.upper()` via a character map. -/
def pyUpper (s : String) : String :=
  String.mk (s.toList.map Char.toUpper)

/-- Python `int(s)` on a decimal-digit string (`none` is the
`ValueError`). -/
def digitsToNat? (s : String) : Option Nat :=
  if s.toList.isEmpty then none
  else s.toList.foldl
    (fun acc c => acc.bind (fun a => if c.isDigit then some (a * 10 + (c.toNat - 48)) else none))
    (some 0)

/-- JSON-like values: the payload type of every Python dict in the program.
Objects are ordered association lists, matching Python dict insertion order. -/
inductive JVal where
  | jnull : JVal
  | jbool : Bool → JVal
  | jnum : Rat → JVal
  | jstr : String → JVal
  | jarr : List JVal → JVal
  | jobj : List (String × JVal) → JVal
deriving Repr, BEq

/-- Ordered association list standing for a Python dict. -/
abbrev JObj := List (String × JVal)

/-- Python `d[k]` / `d.get(k)`: first binding of the key, if any. -/
def jget : JObj → String → Option JVal
  | [], _ => none
  | (k, v) :: rest, k' => if k = k' then some v else jget rest k'

/-- Python `d[k] = v`: replace the existing binding in place, else append
(insertion-order semantics of Python dicts). -/
def jset : JObj → String → JVal → JObj
  | [], k, v => [(k, v)]
  | (k', v') :: rest, k, v =>
      if k' = k then (k', v) :: rest else (k', v') :: jset rest k v

/-- Python truthiness of a JSON value. -/
def truthy : JVal → Bool
  | .jnull => false
  | .jbool b => b
  | .jnum q => q ≠ 0
  | .jstr s => s ≠ ""
  | .jarr l => !l.isEmpty
  | .jobj o => !o.isEmpty

/-- Python truthiness of `d.get(k)` (a missing key is `None`, hence falsy). -/
def truthyO : Option JVal → Bool
  | none => false
  | some v => truthy v

/-- View a JSON value as a Python `str`, when it is one. -/
def asStr : JVal → Option String
  | .jstr s => some s
  | _ => none

/-- View a JSON value as a Python `int` (Python bools are ints; a float or
any other value used where an int is required raises, hence `none`). -/
def asInt : JVal → Option Int
  | .jnum q => if q.den = 1 then some q.num else none
  | .jbool b => some (if b then 1 else 0)
  | _ => none

/-- View a JSON value as a Python list of values. -/
def asArr : JVal → Option (List JVal)
  | .jarr l => some l
  | _ => none

/-- View a JSON value as a dict. -/
def asObj : JVal → Option JObj
  | .jobj o => some o
  | _ => none

/-- Python `str(...)` / f-string rendering of a value, as used when the
program interpolates tool data into prompt text.  Mirrors `json`-ish
rendering closely enough for the string-building code; no theorem below
depends on the exact text of an interpolated non-string value. -/
def pyStr : JVal → String
  | .jnull => "None"
  | .jbool b => if b then "True" else "False"
  | .jnum q => if q.den = 1 then toString q.num else toString q
  | .jstr s => s
  | .jarr _ => "[...]"
  | .jobj _ => "\x7b...\x7d"

/-- Python list slicing `l[:n]` for a possibly negative `n`. -/
def pySliceTo {α : Type} (n : Int) (l : List α) : List α :=
  if 0 ≤ n then l.take n.toNat else l.take (l.length - (-n).toNat)

/-- Python `round(x, 1)` modelled as arithmetic rounding of the rational
value: `floor(10*q + 1/2) / 10`, written on the numerator/denominator so
the kernel can evaluate it (the theorems below never depend on the exact
tie-breaking of float rounding). -/
def round1 (q : Rat) : Rat :=
  mkRat (Int.fdiv (20 * q.num + q.den) (2 * q.den)) 10

/-- Python `int(x)` on a numeric value: truncation toward zero. -/
def pyTrunc (q : Rat) : Int :=
  Int.tdiv q.num q.den

/-- Exact rational multiplication written on numerators/denominators so
the kernel can evaluate it (used for the analytics sort keys). -/
def ratMulInt (a b : Rat) : Rat :=
  mkRat (a.num * b.num) (a.den * b.den)

/-- Numeric content of an optional JSON value (the program only applies it
where the key is always bound to a number). -/
def ratOf : Option JVal → Rat
  | some (.jnum q) => q
  | _ => 0

/-! ## `NFLCompanion.get_injury_report` (app.py lines 117-148)

Pure: no outbound call is made; the handler returns static guidance.
The inner `try` can only trigger on a non-string truthy `team_name`
(`team_name.lower()` raises `AttributeError`, caught by the handler). -/

/-- `NFLCompanion.get_injury_report`. -/
def get_injury_report (team_name : Option JVal) : JVal :=
  match team_name with
  | some v =>
    if truthy v then
      match v with
      | .jstr s =>
        .jobj [("success", .jbool true),
          ("message", .jstr ("For the most up-to-date " ++ s ++
            " injury report, check ESPN\x27s official injury page.")),
          ("guidance", .jstr ("Injury reports are typically released on Wednesday, " ++
            "Thursday, and Friday during the season with player status designations " ++
            "(Out, Doubtful, Questionable, IR).")),
          ("espn_injuries_url", .jstr "https://www.espn.com/nfl/injuries"),
          ("note", .jstr ("Real-time injury impacts often show up in game-day " ++
            "inactive lists and play-by-play data."))]
      | _ =>
        .jobj [("success", .jbool false), ("error", .jstr "AttributeError"),
          ("message", .jstr "Could not fetch injury report information at this time")]
    else
      .jobj [("success", .jbool true),
        ("message", .jstr ("For comprehensive NFL injury reports across all teams, " ++
          "check ESPN\x27s official injury page which is updated daily.")),
        ("guidance", .jstr ("Injury reports are released Wednesday-Friday with player " ++
          "designations: Out (will not play), Doubtful (unlikely to play), " ++
          "Questionable (uncertain), IR (injured reserve, out minimum 4 games).")),
        ("espn_injuries_url", .jstr "https://www.espn.com/nfl/injuries"),
        ("suggestion", .jstr ("Ask about a specific team for targeted injury " ++
          "information, or ask about specific players mentioned in recent news."))]
  | none =>
      .jobj [("success", .jbool true),
        ("message", .jstr ("For comprehensive NFL injury reports across all teams, " ++
          "check ESPN\x27s official injury page which is updated daily.")),
        ("guidance", .jstr ("Injury reports are released Wednesday-Friday with player " ++
          "designations: Out (will not play), Doubtful (unlikely to play), " ++
          "Questionable (uncertain), IR (injured reserve, out minimum 4 games).")),
        ("espn_injuries_url", .jstr "https://www.espn.com/nfl/injuries"),
        ("suggestion", .jstr ("Ask about a specific team for targeted injury " ++
          "information, or ask about specific players mentioned in recent news."))]

/-! ## `NFLCompanion.get_nfl_news` (app.py lines 150-207)

The two RSS feeds are external; a feed is modelled as `Option (List
FeedEntry)` where `none` stands for a fetch/parse failure (the per-feed
`try` swallows it and the handler moves on). -/

/-- One feedparser entry: feedparser exposes string fields that may be
absent (the handler reads each with `.get(key, default)`). -/
structure FeedEntry where
  title : Option String
  summary : Option String
  link : Option String
  published : Option String
deriving Repr

/-- Python string slicing `s[:n]` (first `n` characters). -/
def pyStrTake (s : String) (n : Nat) : String :=
  String.mk (s.toList.take n)

/-- Summary truncation from app.py lines 163/180:
`entry.get('summary', 'N/A')[:200] + '...' if len(entry.get('summary', '')) > 200
else entry.get('summary', 'N/A')`. -/
def newsSummary (e : FeedEntry) : String :=
  if (e.summary.getD "").length > 200 then pyStrTake (e.summary.getD "N/A") 200 ++ "..."
  else e.summary.getD "N/A"

/-- One aggregated news item as built inside `get_nfl_news`. -/
def newsItem (src : String) (e : FeedEntry) : JObj :=
  [("title", .jstr (e.title.getD "N/A")),
   ("summary", .jstr (newsSummary e)),
   ("link", .jstr (e.link.getD "N/A")),
   ("published", .jstr (e.published.getD "N/A")),
   ("source", .jstr src)]

/-- The items gathered from the primary feed (app.py lines 156-169): the
first `limit` entries, or none at all when the fetch raised. -/
def newsItems1 (feed1 : Option (List FeedEntry)) (limit : Int) : List JObj :=
  match feed1 with
  | some es => (pySliceTo limit es).map (newsItem "NFL Trade Rumors")
  | none => []

/-- The full `news_items` accumulation (app.py lines 153-186): the
secondary feed is consulted only when the primary yielded fewer than
`limit`, and contributes at most the remaining `limit - len(news_items)`
slots. -/
def newsItems (feed1 feed2 : Option (List FeedEntry)) (limit : Int) : List JObj :=
  let items1 := newsItems1 feed1 limit
  items1 ++
    (if (items1.length : Int) < limit then
      match feed2 with
      | some es => (pySliceTo (limit - items1.length) es).map (newsItem "Pro Football Rumors")
      | none => []
    else [])

/-- `NFLCompanion.get_nfl_news`. -/
def get_nfl_news (feed1 feed2 : Option (List FeedEntry)) (limit : Int) : JVal :=
  let items := newsItems feed1 feed2 limit
  if items.isEmpty then
    .jobj [("success", .jbool false),
      ("message", .jstr "Could not fetch NFL news at this time"),
      ("news", .jarr [])]
  else
    .jobj [("success", .jbool true),
      ("news", .jarr (items.map .jobj)),
      ("count", .jnum items.length)]

/-! ## `NFLCompanion.check_fantasy_team_injuries` (app.py lines 209-272) -/

/-- Injury keyword list from app.py line 236. -/
def injury_keywords : List String :=
  ["injury", "injured", "hurt", "questionable", "doubtful", "out", "ir",
   "placed on", "return", "activated", "designated"]

/-- Read a dict key whose value must be a Python list of strings;
`none` models the `TypeError`/`AttributeError` the handler would raise
(and catch in its own `except`, returning the failure envelope). -/
def strListOf (v : JVal) : Option (List String) :=
  match v with
  | .jarr l => l.mapM asStr
  | _ => none

/-- Python `list(set(a + b))`: deduplication.  CPython set iteration order
is unspecified; it is modelled as first-occurrence order, and no theorem
below depends on the order of the deduplicated list. -/
def dedup (l : List String) : List String :=
  l.foldl (fun acc x => if acc.contains x then acc else acc ++ [x]) []

/-- The injury updates collected by the scan: for every news item and every
player, append an update when the player name occurs in the lowered
title/summary and an injury keyword occurs too (app.py lines 238-257). -/
def injuryUpdates (players : List String) (items : List JObj) : List JObj :=
  items.flatMap (fun item =>
    let title := pyLower (match jget item "title" with | some (.jstr s) => s | _ => "")
    let summary := pyLower (match jget item "summary" with | some (.jstr s) => s | _ => "")
    (players.filter (fun p =>
        (hasSubstr title (pyLower p) || hasSubstr summary (pyLower p)) &&
        injury_keywords.any (fun kw => hasSubstr title kw || hasSubstr summary kw))).map
      (fun p =>
        [("player", .jstr p),
         ("headline", (jget item "title").getD (.jstr "N/A")),
         ("summary", (jget item "summary").getD (.jstr "N/A")),
         ("link", (jget item "link").getD (.jstr "N/A")),
         ("source", (jget item "source").getD (.jstr "N/A"))]))

/-- `NFLCompanion.check_fantasy_team_injuries`. -/
def check_fantasy_team_injuries (feed1 feed2 : Option (List FeedEntry))
    (fantasy_context : JObj) : JVal :=
  match strListOf ((jget fantasy_context "my_team").getD (.jarr [])),
        strListOf ((jget fantasy_context "interested_players").getD (.jarr [])) with
  | some my_team, some interested =>
    let all_players := dedup (my_team ++ interested)
    if all_players.isEmpty then
      .jobj [("success", .jbool false),
        ("message", .jstr "No fantasy team players to check"), ("updates", .jarr [])]
    else
      let news_result := get_nfl_news feed1 feed2 20
      if !truthyO (match news_result with | .jobj o => jget o "success" | _ => none) then
        .jobj [("success", .jbool false),
          ("message", .jstr "Could not fetch news for injury check"), ("updates", .jarr [])]
      else
        let items : List JObj :=
          match news_result with
          | .jobj o =>
            (match jget o "news" with
             | some (.jarr l) => l.filterMap asObj
             | _ => [])
          | _ => []
        let ups := injuryUpdates all_players items
        .jobj [("success", .jbool true), ("updates", .jarr (ups.map .jobj)),
          ("count", .jnum ups.length)]
  | _, _ =>
    .jobj [("success", .jbool false), ("error", .jstr "TypeError"),
      ("message", .jstr "Could not check fantasy team injuries"), ("updates", .jarr [])]

/-! ## `NFLCompanion.analyze_player_routes_plays` (app.py lines 686-805)

Fully pure: a fixed, hard-coded archetype table, sorted by
`success_rate * volume` descending, truncated to `num_results`. -/

/-- Hard-coded receiver route archetype table (app.py lines 694-705). -/
def receiver_routes : List (String × JObj) :=
  [("Go/Vertical", [("avg_yards", .jnum (mkRat 185 10)), ("targets", .jnum 28), ("receptions", .jnum 16), ("tds", .jnum 4), ("success_rate", .jnum 57)]),
   ("Slant", [("avg_yards", .jnum (mkRat 82 10)), ("targets", .jnum 42), ("receptions", .jnum 33), ("tds", .jnum 2), ("success_rate", .jnum 79)]),
   ("Out", [("avg_yards", .jnum (mkRat 103 10)), ("targets", .jnum 35), ("receptions", .jnum 24), ("tds", .jnum 1), ("success_rate", .jnum 69)]),
   ("Corner", [("avg_yards", .jnum (mkRat 147 10)), ("targets", .jnum 24), ("receptions", .jnum 14), ("tds", .jnum 3), ("success_rate", .jnum 58)]),
   ("Post", [("avg_yards", .jnum (mkRat 162 10)), ("targets", .jnum 19), ("receptions", .jnum 12), ("tds", .jnum 4), ("success_rate", .jnum 63)]),
   ("Comeback", [("avg_yards", .jnum (mkRat 121 10)), ("targets", .jnum 26), ("receptions", .jnum 19), ("tds", .jnum 1), ("success_rate", .jnum 73)]),
   ("Dig/In", [("avg_yards", .jnum (mkRat 118 10)), ("targets", .jnum 33), ("receptions", .jnum 26), ("tds", .jnum 2), ("success_rate", .jnum 79)]),
   ("Wheel", [("avg_yards", .jnum (mkRat 154 10)), ("targets", .jnum 14), ("receptions", .jnum 7), ("tds", .jnum 2), ("success_rate", .jnum 50)]),
   ("Crossing", [("avg_yards", .jnum (mkRat 95 10)), ("targets", .jnum 38), ("receptions", .jnum 31), ("tds", .jnum 3), ("success_rate", .jnum 82)]),
   ("Hitch", [("avg_yards", .jnum (mkRat 68 10)), ("targets", .jnum 47), ("receptions", .jnum 40), ("tds", .jnum 1), ("success_rate", .jnum 85)])]

/-- Hard-coded QB play archetype table (app.py lines 708-719). -/
def qb_plays : List (String × JObj) :=
  [("Play Action Pass", [("completions", .jnum 65), ("attempts", .jnum 88), ("yards", .jnum 952), ("tds", .jnum 9), ("success_rate", .jnum 74)]),
   ("RPO (Run-Pass Option)", [("completions", .jnum 51), ("attempts", .jnum 67), ("yards", .jnum 543), ("tds", .jnum 5), ("success_rate", .jnum 76)]),
   ("Bootleg", [("completions", .jnum 35), ("attempts", .jnum 42), ("yards", .jnum 458), ("tds", .jnum 5), ("success_rate", .jnum 83)]),
   ("Screen Pass", [("completions", .jnum 42), ("attempts", .jnum 47), ("yards", .jnum 328), ("tds", .jnum 2), ("success_rate", .jnum 89)]),
   ("Quick Slant Package", [("completions", .jnum 74), ("attempts", .jnum 88), ("yards", .jnum 663), ("tds", .jnum 5), ("success_rate", .jnum 84)]),
   ("Deep Shot/Vertical", [("completions", .jnum 28), ("attempts", .jnum 58), ("yards", .jnum 851), ("tds", .jnum 7), ("success_rate", .jnum 48)]),
   ("Designed Rollout", [("completions", .jnum 44), ("attempts", .jnum 56), ("yards", .jnum 567), ("tds", .jnum 4), ("success_rate", .jnum 79)]),
   ("Shotgun Draw", [("carries", .jnum 19), ("yards", .jnum 120), ("tds", .jnum 2), ("success_rate", .jnum 63)]),
   ("Empty Set Pass", [("completions", .jnum 58), ("attempts", .jnum 81), ("yards", .jnum 689), ("tds", .jnum 5), ("success_rate", .jnum 72)]),
   ("Two-Minute Drill", [("completions", .jnum 49), ("attempts", .jnum 65), ("yards", .jnum 618), ("tds", .jnum 7), ("success_rate", .jnum 75)])]

/-- Receiver sort key `x[1]['success_rate'] * x[1]['targets']` (line 728). -/
def routeKey (s : JObj) : Rat :=
  ratMulInt (ratOf (jget s "success_rate")) (ratOf (jget s "targets"))

/-- QB sort key `x[1]['success_rate'] * x[1].get('attempts', x[1].get('carries', 1))`
(line 759). -/
def playKey (s : JObj) : Rat :=
  ratMulInt (ratOf (jget s "success_rate"))
    (ratOf (some ((jget s "attempts").getD ((jget s "carries").getD (.jnum 1)))))

/-- Insert `x` before the first element `y` with `le x y` (insertion step
of a stable sort: `le x y` reads "x may come before y"). -/
def insertStable {α : Type} (le : α → α → Bool) (x : α) : List α → List α
  | [] => [x]
  | y :: ys => if le x y then x :: y :: ys else y :: insertStable le x ys

/-- Stable insertion sort by a total comparison `le` (same result as any
stable sort, e.g. Python\x27s Timsort, for a total `le`). -/
def stableSortBy {α : Type} (le : α → α → Bool) (l : List α) : List α :=
  l.foldr (insertStable le) []

/-- Python `sorted(l, key=k, reverse=True)`: stable descending sort. -/
def sortByKeyDesc {α : Type} (key : α → Rat) (l : List α) : List α :=
  stableSortBy (fun a b => decide (key b ≤ key a)) l

/-- `NFLCompanion.analyze_player_routes_plays`. -/
def analyze_player_routes_plays (player_name position : String) (num_results : Int) : JVal :=
  let position_upper := pyUpper position
  if ["WR", "TE", "RECEIVER", "WIDE RECEIVER", "TIGHT END"].contains position_upper then
    let top_routes := pySliceTo num_results (sortByKeyDesc (fun p => routeKey p.2) receiver_routes)
    let results : List JObj := top_routes.map (fun p =>
      [("route_name", .jstr p.1),
       ("targets", (jget p.2 "targets").getD .jnull),
       ("receptions", (jget p.2 "receptions").getD .jnull),
       ("avg_yards", (jget p.2 "avg_yards").getD .jnull),
       ("touchdowns", (jget p.2 "tds").getD .jnull),
       ("success_rate", (jget p.2 "success_rate").getD .jnull)])
    .jobj [("success", .jbool true), ("player", .jstr player_name),
      ("position", .jstr position), ("analysis_type", .jstr "routes"),
      ("games_analyzed", .jnum 9),
      ("top_routes", .jarr (results.map .jobj)),
      ("note", .jstr ("Analysis based on typical route distribution patterns for this " ++
        "player archetype this season. Actual granular route data requires All-22 film access."))]
  else if ["QB", "QUARTERBACK"].contains position_upper then
    let top_plays := pySliceTo num_results (sortByKeyDesc (fun p => playKey p.2) qb_plays)
    let results : List JObj := top_plays.map (fun p =>
      if (jget p.2 "attempts").isSome then
        [("play_name", .jstr p.1),
         ("completions", (jget p.2 "completions").getD .jnull),
         ("attempts", (jget p.2 "attempts").getD .jnull),
         ("yards", (jget p.2 "yards").getD .jnull),
         ("touchdowns", (jget p.2 "tds").getD .jnull),
         ("success_rate", (jget p.2 "success_rate").getD .jnull)]
      else
        [("play_name", .jstr p.1),
         ("carries", (jget p.2 "carries").getD .jnull),
         ("yards", (jget p.2 "yards").getD .jnull),
         ("touchdowns", (jget p.2 "tds").getD .jnull),
         ("success_rate", (jget p.2 "success_rate").getD .jnull)])
    .jobj [("success", .jbool true), ("player", .jstr player_name),
      ("position", .jstr position), ("analysis_type", .jstr "plays"),
      ("games_analyzed", .jnum 9),
      ("top_plays", .jarr (results.map .jobj)),
      ("note", .jstr ("Analysis based on typical play-calling patterns for this " ++
        "player archetype this season. Actual granular play data requires All-22 film access."))]
  else
    .jobj [("success", .jbool false),
      ("message", .jstr ("Route/play analysis is only available for WR, TE, and QB " ++
        "positions. " ++ player_name ++ " is listed as " ++ position ++ "."))]

/-! ## `NFLCompanion.generate_route_play_diagrams` (app.py lines 807-1245)

The filesystem of already-rendered diagrams is threaded as a list of
filenames; matplotlib draw failures are an environment predicate
`drawFails diagram_type name` (the source catches them per name). -/

/-- Diagram cache key.  The source computes
`hashlib.md5(f"{diagram_type}_{name}".encode()).hexdigest()[:8]`; the MD5
digest is modelled by a deterministic polynomial hash of the same input
string (all a theorem uses is that the digest is a pure function of the
input). -/
def md5hex8 (s : String) : String :=
  toString (s.toList.foldl (fun a c => (a * 131 + c.toNat) % 4294967296) 7)

/-- Filename derived from the diagram type and name (app.py lines 826-827). -/
def diagramFilename (diagram_type name : String) : String :=
  diagram_type ++ "_" ++ md5hex8 (diagram_type ++ "_" ++ name) ++ ".png"

/-- Whether drawing this name fails inside the per-name `try` (app.py
lines 841-1230): either the matplotlib render raises (environment
predicate `drawFails`), or the name is not a string and one of the three
diagram-type branches calls `name.lower()` on it. -/
def drawRaises (drawFails : String → String → Bool) (diagram_type : String) (name : JVal) : Bool :=
  drawFails diagram_type (pyStr name) ||
    (["route", "play", "coverage"].contains diagram_type && (asStr name).isNone)

/-- The per-name loop of `generate_route_play_diagrams` (app.py lines
824-1230): returns the per-name entry list and the updated filesystem. -/
def genDiagramsLoop (drawFails : String → String → Bool) (diagram_type : String) :
    List JVal → List String → (List JObj × List String)
  | [], fs => ([], fs)
  | name :: rest, fs =>
    let fn := diagramFilename diagram_type (pyStr name)
    let url := "/static/diagrams/" ++ fn
    if fs.contains fn then
      let r := genDiagramsLoop drawFails diagram_type rest fs
      ([("name", name), ("url", .jstr url), ("success", .jbool true)] :: r.1, r.2)
    else if drawRaises drawFails diagram_type name then
      let r := genDiagramsLoop drawFails diagram_type rest fs
      ([("name", name), ("error", .jstr "draw error"), ("success", .jbool false)] :: r.1, r.2)
    else
      let r := genDiagramsLoop drawFails diagram_type rest (fs ++ [fn])
      ([("name", name), ("url", .jstr url), ("success", .jbool true)] :: r.1, r.2)

/-- `NFLCompanion.generate_route_play_diagrams`. -/
def generate_route_play_diagrams (drawFails : String → String → Bool)
    (route_or_play_names : List JVal) (diagram_type : String)
    (fs : List String) : JVal × List String :=
  let (ds, fs') := genDiagramsLoop drawFails diagram_type route_or_play_names fs
  (.jobj [("success", .jbool true),
    ("diagrams", .jarr (ds.map .jobj)),
    ("count", .jnum (ds.countP (fun d => truthyO (jget d "success")))),
    ("note", .jstr "Diagrams are simplified tactical illustrations for educational purposes.")],
   fs')

/-! ## `NFLCompanion.get_fantasy_team` (app.py lines 274-470)

The `espn_api.football.League` client is the external collaborator: a
successful construction yields a `LeagueData` snapshot; a raised exception
is its message string (classified by substring, lines 431-470). -/

/-- One rostered player as exposed by the espn_api client; `Option` fields
model the `hasattr` probes in the roster-building loop (lines 364-373). -/
structure LPlayer where
  name : String
  position : String
  slot_position : Option String
  proTeam : Option String
  total_points : Option Rat
  projected_total_points : Option Rat
  injuryStatus : Option String
deriving Repr

/-- One league team as exposed by the espn_api client. -/
structure LTeam where
  team_name : String
  owner : Option String
  wins : Int
  losses : Int
  points_for : Rat
  points_against : Rat
  roster : List LPlayer
deriving Repr

/-- One current-week box score; teams are identified by their team name
(the source compares the client's team objects directly), and the
projected pair models the `hasattr(matchup, 'home_projected')` probe. -/
structure BoxScore where
  home_team : String
  away_team : String
  home_score : Rat
  away_score : Rat
  projected : Option (Rat × Rat)
deriving Repr

/-- Snapshot of a successfully constructed `League` client.  `box_scores
= none` models a missing `box_scores` attribute or a raised fetch (the
source logs and leaves the matchup `None`, lines 377-392). -/
structure LeagueData where
  current_week : Int
  settings_name : Option String
  teams : List LTeam
  box_scores : Option (List BoxScore)
deriving Repr

/-- The two `League(...)` construction paths (with and without private
cookies); `Except.error` carries `str(e)` of the raised exception. -/
structure EspnEnv where
  connectAuth : Int → String → String → Int → Except String LeagueData
  connectNoAuth : Int → Int → Except String LeagueData

/-- Python `int(league_id)`: `none` is a `ValueError` (non-numeric
string); non-string non-numeric values raise `TypeError` instead, which
lands in the generic `except` branch, modelled by the caller. -/
def leagueIdInt : JVal → Option Int
  | .jstr s => (digitsToNat? s).map Int.ofNat
  | .jnum q => some (pyTrunc q)
  | .jbool b => some (if b then 1 else 0)
  | _ => none

/-- Exception classification of `get_fantasy_team` (app.py lines 431-470). -/
def classifyEspnError (e : String) : JVal :=
  let m := pyLower e
  if hasSubstr m "league not found" || hasSubstr m "404" then
    .jobj [("success", .jbool false), ("error", .jstr e),
      ("message", .jstr "League not found. Double-check your ESPN_LEAGUE_ID."),
      ("setup_help", .jstr ("Verify your League ID is correct by checking your ESPN " ++
        "Fantasy Football league URL"))]
  else if hasSubstr m "unauthorized" || hasSubstr m "401" || hasSubstr m "403" then
    .jobj [("success", .jbool false), ("error", .jstr e),
      ("message", .jstr "Authentication failed. Your ESPN_S2 or ESPN_SWID cookies may be expired."),
      ("setup_help", .jstr ("Private leagues require fresh cookies. Log into ESPN Fantasy " ++
        "Football and get new ESPN_S2 and ESPN_SWID values from browser cookies."))]
  else if hasSubstr m "timeout" || hasSubstr m "timed out" then
    .jobj [("success", .jbool false), ("error", .jstr e),
      ("message", .jstr "ESPN API request timed out. Try again in a moment."),
      ("setup_help", .jstr ("ESPN API may be experiencing high traffic. Wait a few " ++
        "seconds and ask again."))]
  else if hasSubstr m "rate limit" || hasSubstr m "429" then
    .jobj [("success", .jbool false), ("error", .jstr e),
      ("message", .jstr "ESPN API rate limit reached. Please wait a minute before trying again."),
      ("setup_help", .jstr "ESPN limits API requests. Wait 60 seconds before fetching your team again.")]
  else
    .jobj [("success", .jbool false), ("error", .jstr e),
      ("message", .jstr ("Could not fetch ESPN Fantasy team. Error: " ++ e)),
      ("setup_help", .jstr ("Make sure ESPN_LEAGUE_ID is set correctly. For private " ++
        "leagues, also set ESPN_S2 and ESPN_SWID cookies."))]

/-- The `'Could not find team'` / `needs_team_selection` team summaries. -/
def teamSummary (t : LTeam) : JVal :=
  .jobj [("team_name", .jstr t.team_name),
    ("owner", .jstr (t.owner.getD "N/A")),
    ("record", .jstr (toString t.wins ++ "-" ++ toString t.losses)),
    ("points_for", .jnum (round1 t.points_for))]

/-- Roster entry construction (app.py lines 363-373). -/
def rosterEntry (p : LPlayer) : JVal :=
  .jobj [("name", .jstr p.name),
    ("position", .jstr p.position),
    ("slot", .jstr (p.slot_position.getD p.position)),
    ("team", .jstr (p.proTeam.getD "N/A")),
    ("points_total", .jnum ((p.total_points.map round1).getD 0)),
    ("projected_points", .jnum ((p.projected_total_points.map round1).getD 0)),
    ("injury_status", .jstr (match p.injuryStatus with
      | some s => if s ≠ "" then s else "HEALTHY"
      | none => "HEALTHY"))]

/-- Current-matchup lookup (app.py lines 375-392). -/
def findMatchup (bss : List BoxScore) (myName : String) (week : Int) : Option JVal :=
  match bss with
  | [] => none
  | bs :: rest =>
    if bs.home_team = myName || bs.away_team = myName then
      let home := bs.home_team = myName
      some (.jobj [("week", .jnum week),
        ("opponent", .jstr (if home then bs.away_team else bs.home_team)),
        ("my_score", .jnum (round1 (if home then bs.home_score else bs.away_score))),
        ("opponent_score", .jnum (round1 (if home then bs.away_score else bs.home_score))),
        ("my_projected", match bs.projected with
          | some pr => .jnum (round1 (if home then pr.1 else pr.2))
          | none => .jnum 0)])
    else findMatchup rest myName week

/-- Standings sort `standings.sort(key=lambda x: (x['wins'], x['points_for']),
reverse=True)` (line 407): stable, descending lexicographically. -/
def standingsSort (l : List LTeam) : List LTeam :=
  l.mergeSort (fun a b =>
    decide (b.wins < a.wins) || (decide (b.wins = a.wins) && decide (b.points_for ≤ a.points_for)))

/-- The per-team standings entry (app.py lines 395-404). -/
def standingsEntry (myName : String) (t : LTeam) : JVal :=
  .jobj [("team_name", .jstr t.team_name),
    ("wins", .jnum t.wins),
    ("losses", .jnum t.losses),
    ("points_for", .jnum (round1 t.points_for)),
    ("points_against", .jnum (round1 t.points_against)),
    ("is_my_team", .jbool (t.team_name = myName))]

/-- `NFLCompanion.get_fantasy_team`. -/
def get_fantasy_team (env : EspnEnv) (league_id espn_s2 swid : Option JVal)
    (year : Int) (team_name : Option JVal) : JVal :=
  if !truthyO league_id then
    .jobj [("success", .jbool false), ("needs_credentials", .jbool true),
      ("message", .jstr "To connect your ESPN Fantasy team, I need your League ID."),
      ("setup_help", .jstr ("Find your League ID in your ESPN Fantasy Football league " ++
        "URL: https://fantasy.espn.com/football/league?leagueId=YOUR_LEAGUE_ID\n\n" ++
        "Just tell me: \"My league ID is 12345678\" and I\x27ll save it for future use."))]
  else
    match leagueIdInt ((league_id).getD .jnull) with
    | none =>
      match (league_id).getD .jnull with
      | .jstr _ =>
        .jobj [("success", .jbool false), ("error", .jstr "ValueError"),
          ("message", .jstr "Invalid League ID format. League ID must be a number."),
          ("setup_help", .jstr ("Check your ESPN_LEAGUE_ID in secrets. It should be " ++
            "only numbers (e.g., 12345678)"))]
      | _ => classifyEspnError "TypeError"
    | some lid =>
      let conn : Except (JVal) LeagueData :=
        if truthyO espn_s2 && truthyO swid then
          match env.connectAuth lid (pyStr ((espn_s2).getD .jnull)) (pyStr ((swid).getD .jnull)) year with
          | .ok ld => .ok ld
          | .error e => .error (classifyEspnError e)
        else
          match env.connectNoAuth lid year with
          | .ok ld => .ok ld
          | .error _ =>
            .error (.jobj [("success", .jbool false),
              ("message", .jstr ("This appears to be a private league. Please provide " ++
                "ESPN_S2 and ESPN_SWID cookies.")),
              ("setup_help", .jstr ("To get cookies: 1) Log into ESPN Fantasy Football, " ++
                "2) Open browser Developer Tools (F12), 3) Go to Application/Storage " ++
                "→ Cookies → espn.com, 4) Copy espn_s2 and SWID values"))])
      match conn with
      | .error v => v
      | .ok ld =>
        let current_week := ld.current_week
        let teams := ld.teams
        if !truthyO team_name then
          .jobj [("success", .jbool true), ("needs_team_selection", .jbool true),
            ("message", .jstr "Please tell me which team is yours from the list below:"),
            ("available_teams", .jarr (teams.map teamSummary)),
            ("league_name", .jstr (ld.settings_name.getD "Fantasy League")),
            ("setup_help", .jstr ("Reply with your team name so I can fetch your " ++
              "roster, matchup, and give you personalized advice."))]
        else
          match asStr ((team_name).getD .jnull) with
          | none => classifyEspnError "AttributeError"
          | some tn =>
            let exact := teams.find? (fun t => pyLower t.team_name = pyLower tn)
            let fuzzy := teams.find? (fun t =>
              hasSubstr (pyLower t.team_name) (pyLower tn) ||
              hasSubstr (pyLower tn) (pyLower t.team_name))
            match exact <|> fuzzy with
            | none =>
              .jobj [("success", .jbool false),
                ("message", .jstr ("Could not find team \"" ++ tn ++ "\" in this league.")),
                ("available_teams", .jarr (teams.map (fun t =>
                  .jobj [("team_name", .jstr t.team_name), ("owner", .jstr (t.owner.getD "N/A"))]))),
                ("setup_help", .jstr "Please provide the exact team name from the list above.")]
            | some my_team =>
              let roster := my_team.roster.map rosterEntry
              let current_matchup : JVal :=
                match ld.box_scores with
                | some bss =>
                  if current_week ≠ 0 then
                    (findMatchup bss my_team.team_name current_week).getD .jnull
                  else .jnull
                | none => .jnull
              let standings := (standingsSort teams).map (standingsEntry my_team.team_name)
              .jobj [("success", .jbool true),
                ("league_name", .jstr (ld.settings_name.getD "Fantasy League")),
                ("team_name", .jstr my_team.team_name),
                ("owner", .jstr (my_team.owner.getD "You")),
                ("record", .jstr (toString my_team.wins ++ "-" ++ toString my_team.losses)),
                ("current_week", .jnum current_week),
                ("roster", .jarr roster),
                ("roster_count", .jnum roster.length),
                ("current_matchup", current_matchup),
                ("standings", .jarr standings),
                ("note", .jstr "Fantasy team data refreshed from ESPN Fantasy Football")]

/-! ## `NFLCompanion.chat` — the tool-use loop (app.py lines 1247-1555)

The language model is scripted: a list of `ModelResponse`s, consumed one
per `client.messages.create` call.  An exhausted script models a raised
model-call failure (error class (c) of the spec), which propagates, hence
`Option`.  The serialized `json.dumps(tool_result)` payload is kept as the
structured value rather than its rendered text. -/

/-- A content block of a model response (text or tool invocation). -/
inductive RBlock where
  | rText : String → RBlock
  | rToolUse : String → String → JObj → RBlock
deriving Repr

/-- One response of the scripted language model. -/
structure ModelResponse where
  stop_reason : String
  content : List RBlock
deriving Repr

/-- A serialized content block inside a stored conversation message. -/
inductive SBlock where
  | sText : String → SBlock
  | sToolUse : String → String → JObj → SBlock
  | sToolResult : String → JVal → SBlock
deriving Repr

/-- Message content: a plain string or a list of content blocks. -/
inductive MContent where
  | mstr : String → MContent
  | mblocks : List SBlock → MContent
deriving Repr

/-- One conversation message. -/
structure Message where
  role : String
  content : MContent
deriving Repr

/-- All external collaborators of one request: network-backed tool
results, the two RSS feeds, matplotlib failures, the ESPN league client,
and the secondary extraction model call (parsed defensively by the route;
`none` models both a parse failure and a raised extraction call, which
the route swallows). -/
structure Env where
  live_scores : JVal
  team_stats : JVal → JVal
  play_by_play : JVal → JVal
  highlights : JVal → JVal → JVal
  feed1 : Option (List FeedEntry)
  feed2 : Option (List FeedEntry)
  drawFails : String → String → Bool
  espn : EspnEnv
  extract : Option JObj
  now : Int

/-- `next(block for block in response.content if block.type == "tool_use")`
(app.py line 1435); `none` is the raised `StopIteration`. -/
def firstToolUse : List RBlock → Option (String × String × JObj)
  | [] => none
  | .rText _ :: rest => firstToolUse rest
  | .rToolUse i n inp :: _ => some (i, n, inp)

/-- Serialization of the assistant's content blocks (app.py lines 1506-1519). -/
def serializeBlocks (bs : List RBlock) : List SBlock :=
  bs.map (fun b => match b with
    | .rText t => .sText t
    | .rToolUse i n inp => .sToolUse i n inp)

/-- Concatenation of the final response's text blocks (app.py lines 1545-1548). -/
def finalText (bs : List RBlock) : String :=
  bs.foldl (fun acc b => match b with | .rText t => acc ++ t | _ => acc) ""

/-- The declared tool names of the Orchestrator (app.py lines 1264-1424 and
the dispatch chain lines 1439-1502). -/
def knownToolNames : List String :=
  ["get_live_scores", "get_team_stats", "get_play_by_play", "get_injury_report",
   "get_nfl_news", "analyze_player_routes_plays", "generate_route_play_diagrams",
   "search_play_highlights", "get_fantasy_team"]

/-- The synthesized result for a hallucinated tool name (app.py line 1504). -/
def unknownToolResult : JVal := .jobj [("error", .jstr "Unknown tool")]

/-- The `if tool_name == ...` dispatch chain of `NFLCompanion.chat`
(app.py lines 1439-1504).  Returns the tool result, the updated
`tool_usage_data` dict and the updated diagram filesystem; `none` models
an uncaught exception (a `KeyError` on a required argument, or a
`TypeError` from `min(limit, 20)`), which aborts the whole request. -/
def dispatchTool (env : Env) (fantasy_context : JObj) (usage : JObj) (fs : List String)
    (name : String) (input : JObj) : Option (JVal × JObj × List String) :=
  if name = "get_live_scores" then some (env.live_scores, usage, fs)
  else if name = "get_team_stats" then do
    let tn ← jget input "team_name"
    some (env.team_stats tn, usage, fs)
  else if name = "get_play_by_play" then do
    let gid ← jget input "game_id"
    some (env.play_by_play gid, usage, fs)
  else if name = "get_injury_report" then
    some (get_injury_report (jget input "team_name"), usage, fs)
  else if name = "get_nfl_news" then do
    let lim ← asInt ((jget input "limit").getD (.jnum 10))
    some (get_nfl_news env.feed1 env.feed2 (min lim 20), usage, fs)
  else if name = "analyze_player_routes_plays" then do
    let pnv ← jget input "player_name"
    let posv ← jget input "position"
    let result :=
      match asStr posv, asInt ((jget input "num_results").getD (.jnum 3)) with
      | some pos, some nr => analyze_player_routes_plays (pyStr pnv) pos nr
      | _, _ =>
        .jobj [("success", .jbool false), ("error", .jstr "TypeError"),
          ("message", .jstr ("Could not analyze routes/plays for " ++ pyStr pnv))]
    let usage' := jset (jset usage "used_analyze_player_routes_plays" (.jbool true))
      "analysis_data" (.jobj [("player_name", pnv), ("position", posv), ("result", result)])
    some (result, usage', fs)
  else if name = "generate_route_play_diagrams" then do
    let namesv ← jget input "route_or_play_names"
    let dty ← jget input "diagram_type"
    match asArr namesv, asStr dty with
    | some names, some t =>
      let (result, fs') := generate_route_play_diagrams env.drawFails names t fs
      some (result, usage, fs')
    | _, _ =>
      some (.jobj [("success", .jbool false), ("error", .jstr "TypeError"),
        ("message", .jstr "Could not generate diagrams at this time")], usage, fs)
  else if name = "search_play_highlights" then do
    let q ← jget input "query"
    some (env.highlights q ((jget input "max_results").getD (.jnum 5)), usage, fs)
  else if name = "get_fantasy_team" then do
    let year ← asInt ((jget input "year").getD (.jnum 2025))
    let team_name0 := jget input "team_name"
    let league_id0 := jget input "league_id"
    let espn_s2_0 := jget input "espn_s2"
    let swid0 := jget input "swid"
    let inject := !fantasy_context.isEmpty
    let league_id :=
      if inject && !truthyO league_id0 && truthyO (jget fantasy_context "espn_league_id") then
        jget fantasy_context "espn_league_id"
      else league_id0
    let espn_s2 :=
      if inject && !truthyO espn_s2_0 && truthyO (jget fantasy_context "espn_s2") then
        jget fantasy_context "espn_s2"
      else espn_s2_0
    let swid :=
      if inject && !truthyO swid0 && truthyO (jget fantasy_context "espn_swid") then
        jget fantasy_context "espn_swid"
      else swid0
    let team_name :=
      if inject && !truthyO team_name0 && truthyO (jget fantasy_context "espn_team_name") then
        jget fantasy_context "espn_team_name"
      else team_name0
    let result := get_fantasy_team env.espn league_id espn_s2 swid year team_name
    let usage' := jset (jset usage "used_get_fantasy_team" (.jbool true))
      "fantasy_team_data" result
    some (result, usage', fs)
  else
    some (unknownToolResult, usage, fs)

/-- The `while response.stop_reason == "tool_use"` loop of
`NFLCompanion.chat` (app.py lines 1434-1555), recursing on the remaining
model script. -/
def chatLoop (env : Env) (fantasy_context : JObj) :
    List ModelResponse → ModelResponse → List Message → JObj → List String →
    Option (String × List Message × JObj × List String)
  | script, resp, history, usage, fs =>
    if resp.stop_reason = "tool_use" then
      match firstToolUse resp.content with
      | none => none
      | some (id, nm, inp) =>
        match dispatchTool env fantasy_context usage fs nm inp with
        | none => none
        | some (tool_result, usage', fs') =>
          let history' := history ++
            [⟨"assistant", .mblocks (serializeBlocks resp.content)⟩,
             ⟨"user", .mblocks [.sToolResult id tool_result]⟩]
          match script with
          | [] => none
          | next :: rest => chatLoop env fantasy_context rest next history' usage' fs'
    else
      let msg := finalText resp.content
      some (msg, history ++ [⟨"assistant", .mstr msg⟩], usage, fs)

/-- `NFLCompanion.chat`: appends the user message, runs the scripted model
and the tool-use loop, and returns `(assistant_message,
conversation_history, tool_usage_data)` plus the threaded diagram
filesystem. -/
def chat (env : Env) (script : List ModelResponse) (user_message : String)
    (conversation_history : List Message) (fantasy_context : JObj) (fs : List String) :
    Option (String × List Message × JObj × List String) :=
  let usage : JObj :=
    [("used_analyze_player_routes_plays", .jbool false), ("analysis_data", .jnull)]
  let history := conversation_history ++ [⟨"user", .mstr user_message⟩]
  match script with
  | [] => none
  | r0 :: rest => chatLoop env fantasy_context rest r0 history usage fs

/-! ## Credential regexes (app.py lines 1821-1840)

A small backtracking matcher over character lists, faithful to `re`
semantics for the three patterns used: leftmost match, alternation tried
left to right, greedy `*`/`?` with backtracking, `re.IGNORECASE` on
literals.  Each pattern ends with its single capture group, so a pattern
is a prefix matcher plus a capture reader on the remainder. -/

/-- A matcher returns the possible remainders of the input, in the order
Python's backtracking would produce them. -/
abbrev RxM := List Char → List (List Char)

/-- Empty pattern. -/
def rxEps : RxM := fun s => [s]

/-- Sequencing. -/
def rxSeq (a b : RxM) : RxM := fun s => (a s).flatMap b

/-- Alternation (left branch preferred). -/
def rxAlt (a b : RxM) : RxM := fun s => a s ++ b s

/-- A literal character, matched case-insensitively (`re.IGNORECASE`). -/
def rxLit (c : Char) : RxM := fun s =>
  match s with
  | x :: rest => if x.toLower = c.toLower then [rest] else []
  | [] => []

/-- A literal string. -/
def rxStrLit (t : String) : RxM :=
  t.toList.foldr (fun c acc => rxSeq (rxLit c) acc) rxEps

/-- A character class. -/
def rxCls (p : Char → Bool) : RxM := fun s =>
  match s with
  | x :: rest => if p x then [rest] else []
  | [] => []

/-- Greedy `?` (presence preferred). -/
def rxOpt (a : RxM) : RxM := fun s => a s ++ [s]

/-- Remainders of consuming a greedy class star, longest consumption first. -/
def starSuffixes (p : Char → Bool) : List Char → List (List Char)
  | [] => [[]]
  | c :: rest => if p c then starSuffixes p rest ++ [c :: rest] else [c :: rest]

/-- Greedy `cls*`. -/
def rxStarCls (p : Char → Bool) : RxM := fun s => starSuffixes p s

/-- First remainder on which the capture reader succeeds. -/
def firstCapOf (cap : List Char → Option String) : List (List Char) → Option String
  | [] => none
  | o :: rest => match cap o with | some g => some g | none => firstCapOf cap rest

/-- `re.search`: try the pattern at each start position, leftmost first. -/
def rxSearch (pre : RxM) (cap : List Char → Option String) : List Char → Option String
  | [] => firstCapOf cap (pre [])
  | c :: rest =>
    match firstCapOf cap (pre (c :: rest)) with
    | some g => some g
    | none => rxSearch pre cap rest

/-- The class `[:|]`. -/
def isColonPipe (c : Char) : Bool := c = ':' || c = '|'

/-- The class `[A-Za-z0-9%+/=]` of the espn_s2 pattern. -/
def isS2Char (c : Char) : Bool :=
  c.isAlpha || c.isDigit || c = '%' || c = '+' || c = '/' || c = '='

/-- The class `[A-Za-z0-9-]` of the SWID pattern. -/
def isSwidChar (c : Char) : Bool := c.isAlpha || c.isDigit || c = '-'

/-- Capture `(\d+)` at the end of the pattern: the maximal digit run. -/
def capDigits (s : List Char) : Option String :=
  let ds := s.takeWhile Char.isDigit
  if ds.isEmpty then none else some (String.mk ds)

/-- Capture `([A-Za-z0-9%+/=]{50,})` at the end of the pattern. -/
def capS2 (s : List Char) : Option String :=
  let ds := s.takeWhile isS2Char
  if ds.length ≥ 50 then some (String.mk ds) else none

/-- Capture `(\{[A-Za-z0-9-]{36}\})` at the end of the pattern. -/
def capSwid (s : List Char) : Option String :=
  match s with
  | c :: rest =>
    if c = Char.ofNat 123 then
      let body := rest.take 36
      if body.length = 36 && body.all isSwidChar then
        match rest.drop 36 with
        | d :: _ =>
          if d = Char.ofNat 125 then some (String.mk (c :: (body ++ [d]))) else none
        | [] => none
      else none
    else none
  | [] => none

/-- Prefix of `(?:league\s*id\s*(?:is)?\s*[:|]?\s*|leagueId=)\s*` before
the `(\d+)` capture (app.py line 1824). -/
def leagueIdPre : RxM :=
  rxSeq
    (rxAlt
      (rxSeq (rxStrLit "league")
        (rxSeq (rxStarCls isPyWs)
          (rxSeq (rxStrLit "id")
            (rxSeq (rxStarCls isPyWs)
              (rxSeq (rxOpt (rxStrLit "is"))
                (rxSeq (rxStarCls isPyWs)
                  (rxSeq (rxOpt (rxCls isColonPipe)) (rxStarCls isPyWs))))))))
      (rxStrLit "leagueId="))
    (rxStarCls isPyWs)

/-- Prefix of `(?:espn_?s2|s2)\s*[:|]?\s*` before the s2 capture
(app.py line 1831). -/
def s2Pre : RxM :=
  rxSeq
    (rxAlt
      (rxSeq (rxStrLit "espn") (rxSeq (rxOpt (rxLit (Char.ofNat 95))) (rxStrLit "s2")))
      (rxStrLit "s2"))
    (rxSeq (rxStarCls isPyWs) (rxSeq (rxOpt (rxCls isColonPipe)) (rxStarCls isPyWs)))

/-- Prefix of `(?:swid)\s*[:|]?\s*` before the SWID capture (line 1838). -/
def swidPre : RxM :=
  rxSeq (rxStrLit "swid")
    (rxSeq (rxStarCls isPyWs) (rxSeq (rxOpt (rxCls isColonPipe)) (rxStarCls isPyWs)))

/-- `re.search(league-id pattern, m, re.IGNORECASE)`, group 1. -/
def leagueIdSearch (m : String) : Option String :=
  rxSearch leagueIdPre capDigits m.toList

/-- `re.search(espn_s2 pattern, m, re.IGNORECASE)`, group 1 (the capture
class contains no whitespace, so the source's trailing `.strip()` is the
identity). -/
def s2Search (m : String) : Option String :=
  rxSearch s2Pre capS2 m.toList

/-- `re.search(swid pattern, m, re.IGNORECASE)`, group 1. -/
def swidSearch (m : String) : Option String :=
  rxSearch swidPre capSwid m.toList

/-! ## The `/chat` route (app.py lines 1603-1924), `/reset` (1926-1933)

The per-user `Conversation` row is modelled with its four logical fields
(JSON blobs kept as parsed values; the dump/parse round trips of
`json.dumps`/`json.loads` are identities of this representation).
`Option` models an uncaught exception, i.e. the route's 500 response. -/

/-- The persisted per-user `Conversation` row (models.py lines 44-53). -/
structure Conversation where
  history : List Message
  fantasy_context : JObj
  recent_analysis_context : JObj
  last_injury_check : Option Int
deriving Repr

/-- Column defaults for a fresh row (models.py lines 48-51). -/
def freshConversation : Conversation :=
  { history := []
    fantasy_context :=
      [("my_team", .jarr []), ("interested_players", .jarr []), ("trade_history", .jarr [])]
    recent_analysis_context := []
    last_injury_check := none }

/-- Fantasy keyword list (app.py line 1656). -/
def fantasy_keywords : List String :=
  ["fantasy", "my team", "my roster", "trade", "waiver", "start", "sit", "bench", "draft"]

/-- Affirmative keyword list (app.py line 1660). -/
def affirmative_keywords : List String :=
  ["yes", "yeah", "yep", "sure", "ok", "okay", "show me", "please", "absolutely", "definitely"]

/-- `any(keyword in user_message.lower() for keyword in fantasy_keywords)`. -/
def isFantasyQuestion (m : String) : Bool :=
  fantasy_keywords.any (fun k => hasSubstr (pyLower m) k)

/-- `len(user_message.split()) <= 5`. -/
def isShortMessage (m : String) : Bool :=
  (pyWords m).length ≤ 5

/-- `any(keyword in user_message.lower() for ...) and is_short_message`. -/
def isAffirmative (m : String) : Bool :=
  affirmative_keywords.any (fun k => hasSubstr (pyLower m) k) && isShortMessage m

/-- Python value equality, used for list membership tests. -/
def jeq (a b : JVal) : Bool := a == b

/-- `.get(key)` on an arbitrary value: `none` is the `AttributeError` of
calling `.get` on a non-dict. -/
def pyGet (v : JVal) (k : String) : Option (Option JVal) :=
  match v with
  | .jobj o => some (jget o k)
  | _ => none

/-- The affirmative-analysis priming pair (app.py lines 1668-1696),
assuming the guard `is_affirmative and recent_analysis_context` held.
Returns `[]` when `analysis_data` is falsy; `none` is an uncaught
exception while rendering. -/
def analysisCtxText (user_message : String) (ado : JObj) : Option String := do
  let player_name := (jget ado "player_name").getD (.jstr "Unknown Player")
  let position := (jget ado "position").getD (.jstr "Unknown Position")
  let result := (jget ado "result").getD (.jobj [])
  let resObj ← asObj result
  let base := "RECENT ROUTE/PLAY ANALYSIS CONTEXT:\n" ++
    "User just asked about " ++ pyStr player_name ++ "\x27s (" ++ pyStr position ++
    ") top routes/plays.\n"
  let mid ←
    if truthyO (jget resObj "success") && truthyO (jget resObj "top_routes") then do
      let routes ← asArr ((jget resObj "top_routes").getD .jnull)
      let names ← routes.mapM (fun r => do
        let ro ← asObj r
        pure ((jget ro "route_name").getD (.jstr "Unknown")))
      let nstrs ← names.mapM asStr
      let kind :=
        if jeq position (.jstr "WR") || jeq position (.jstr "TE") then "routes" else "plays"
      pure ("Analysis showed these top " ++ kind ++ ": " ++
        String.intercalate ", " nstrs ++ "\n" ++
        "Analysis type: " ++ pyStr ((jget resObj "analysis_type").getD (.jstr "routes")) ++ "\n")
    else pure ""
  pure (base ++ mid ++ "\nUser is now responding affirmatively (\x27" ++ user_message ++
    "\x27). They likely want to see visual diagrams of these routes/plays.")

/-- See `analysisCtxText`: the primer injects one user/assistant pair when
`analysis_data` is truthy, nothing otherwise. -/
def buildAnalysisPrimer (user_message : String) (rac : JObj) : Option (List Message) :=
  let analysis_data := (jget rac "analysis_data").getD (.jobj [])
  if truthy analysis_data then
    ((asObj analysis_data).bind (analysisCtxText user_message)).map (fun ctx =>
      [⟨"user", .mstr ctx⟩,
       ⟨"assistant", .mstr "I understand the context from our previous exchange."⟩])
  else some []

/-- The team-selection priming pair (app.py lines 1702-1717). -/
def teamSelectionPrimer (user_message : String) : List Message :=
  [⟨"user", .mstr ("TEAM SELECTION CONTEXT:\n" ++
      "You just asked the user to select their team from the league.\n" ++
      "The user has responded with: \x27" ++ user_message ++ "\x27\n" ++
      "This is their team name selection. Call get_fantasy_team with team_name=\x27" ++
      user_message ++ "\x27 to fetch their roster.\n" ++
      "Use the stored ESPN credentials from the fantasy context.\n")⟩,
   ⟨"assistant", .mstr "I understand. I\x27ll fetch their roster now."⟩]

/-- `has_context` of the fantasy branch (app.py lines 1721-1724). -/
def hasFantasyContext (fc : JObj) : Bool :=
  truthyO (jget fc "my_team") || truthyO (jget fc "interested_players") ||
  truthyO (jget fc "trade_history") || truthyO (jget fc "espn_roster")

/-- The fantasy-context priming pair (app.py lines 1726-1773), assuming
`has_context` held.  `none` is an uncaught rendering exception (e.g. the
`.get` calls on the stored `espn_standings` list). -/
def fantasyCtxText (fc : JObj) : Option String := do
  let credPart :=
    if truthyO (jget fc "espn_league_id") then
      "ESPN Credentials (use these in get_fantasy_team calls):\n" ++
      "  • league_id: " ++ pyStr ((jget fc "espn_league_id").getD .jnull) ++ "\n" ++
      (if truthyO (jget fc "espn_s2") then
        "  • espn_s2: " ++ pyStr ((jget fc "espn_s2").getD .jnull) ++ "\n" else "") ++
      (if truthyO (jget fc "espn_swid") then
        "  • swid: " ++ pyStr ((jget fc "espn_swid").getD .jnull) ++ "\n" else "")
    else ""
  let espnPart ←
    if truthyO (jget fc "espn_roster") then do
      let espn_team_name := pyStr ((jget fc "espn_team_name").getD (.jstr "Unknown"))
      let roster ← asArr ((jget fc "espn_roster").getD .jnull)
      let lines ← roster.mapM (fun p => do
        let po ← asObj p
        let nm ← jget po "name"
        let pos ← jget po "position"
        let pts ← jget po "points_total"
        let istat := jget po "injury_status"
        let status :=
          if truthyO istat && !(jeq (istat.getD .jnull) (.jstr "ACTIVE")) then
            " (" ++ pyStr (istat.getD .jnull) ++ ")"
          else ""
        pure ("  • " ++ pyStr nm ++ " (" ++ pyStr pos ++ ")" ++ status ++ ": " ++
          pyStr pts ++ " pts\n"))
      let matchupPart ←
        if truthyO (jget fc "espn_matchup") then do
          let mo ← asObj ((jget fc "espn_matchup").getD .jnull)
          pure ("\nCurrent Matchup: " ++ pyStr ((jget mo "my_score").getD (.jnum 0)) ++
            " - " ++ pyStr ((jget mo "opponent_score").getD (.jnum 0)) ++ " vs " ++
            pyStr ((jget mo "opponent_name").getD (.jstr "Opponent")) ++ "\n")
        else pure ""
      let standingsPart ←
        if truthyO (jget fc "espn_standings") then do
          let so ← asObj ((jget fc "espn_standings").getD .jnull)
          pure ("League Standing: " ++ pyStr ((jget so "wins").getD (.jnum 0)) ++ "-" ++
            pyStr ((jget so "losses").getD (.jnum 0)) ++ ", Rank: " ++
            pyStr ((jget so "rank").getD (.jstr "N/A")) ++ "\n")
        else pure ""
      pure ("\nESPN Fantasy Team: " ++ espn_team_name ++ "\n" ++
        "ESPN Fantasy Roster (from live API):\n" ++ String.join lines ++
        matchupPart ++ standingsPart ++
        "\nNOTE: When calling get_fantasy_team, use the credentials above and team_name=\x27" ++
        espn_team_name ++ "\x27\n")
    else pure ""
  let myTeamPart ←
    if truthyO (jget fc "my_team") then do
      let l ← asArr ((jget fc "my_team").getD .jnull)
      let ss ← l.mapM asStr
      pure ("My Team (manual): " ++ String.intercalate ", " ss ++ "\n")
    else pure ""
  let interestedPart ←
    if truthyO (jget fc "interested_players") then do
      let l ← asArr ((jget fc "interested_players").getD .jnull)
      let ss ← l.mapM asStr
      pure ("Players I\x27m Interested In: " ++ String.intercalate ", " ss ++ "\n")
    else pure ""
  let tradePart ←
    if truthyO (jget fc "trade_history") then do
      let l ← asArr ((jget fc "trade_history").getD .jnull)
      let ss ← l.mapM asStr
      pure ("Trade History: " ++ String.intercalate "; " ss ++ "\n")
    else pure ""
  pure ("FANTASY FOOTBALL CONTEXT:\n" ++ credPart ++ espnPart ++ myTeamPart ++
    interestedPart ++ tradePart)

/-- The fantasy-context priming pair built from `fantasyCtxText`. -/
def buildFantasyPrimer (fc : JObj) : Option (List Message) :=
  (fantasyCtxText fc).map (fun ctx =>
    [⟨"user", .mstr ctx⟩,
     ⟨"assistant", .mstr "I\x27ll remember your fantasy football context."⟩])

/-- The full priming-message construction of the route (app.py lines
1655-1773): the affirmative-analysis block, then the team-selection /
fantasy `if`/`elif`. -/
def buildPrimers (user_message : String) (fc rac : JObj) : Option (List Message) :=
  (if isAffirmative user_message && !rac.isEmpty then
    buildAnalysisPrimer user_message rac
  else some []).bind (fun hist1 =>
    if truthyO (jget fc "awaiting_team_selection") then
      some (hist1 ++ teamSelectionPrimer user_message)
    else if isFantasyQuestion user_message then
      (if hasFantasyContext fc then
        (buildFantasyPrimer fc).map (fun p => hist1 ++ p)
      else some hist1)
    else some hist1)

/-- The proactive injury message (app.py lines 1643-1648). -/
def formatInjuryMessage (res : JVal) : String :=
  let ups : List JVal :=
    match res with
    | .jobj o => (match jget o "updates" with | some (.jarr l) => l | _ => [])
    | _ => []
  "By the way - here\x27s an injury update for your fantasy team:\n\n" ++
    String.join (ups.map (fun u =>
      "• **" ++ pyStr (((pyGet u "player").getD none).getD .jnull) ++ "**: " ++
      pyStr (((pyGet u "headline").getD none).getD .jnull) ++ "\n")) ++ "\n"

/-- The ESPN fantasy-team postprocessing of the route (app.py lines
1788-1812): merge a successful roster fetch into `fantasy_context`, or
set the awaiting-team-selection flag. -/
def postFantasyUpdate (now : Int) (tool_usage : JObj) (fc : JObj) : JObj :=
  if truthyO (jget tool_usage "used_get_fantasy_team") then
    let ftd := (jget tool_usage "fantasy_team_data").getD (.jobj [])
    let g : String → Option JVal := fun k =>
      match ftd with | .jobj o => jget o k | _ => none
    if truthyO (g "success") && !truthyO (g "needs_team_selection") then
      let fc := jset fc "espn_roster" ((g "roster").getD (.jarr []))
      let fc := jset fc "espn_matchup" ((g "matchup").getD (.jobj []))
      let fc := jset fc "espn_standings" ((g "standings").getD (.jobj []))
      let fc := jset fc "espn_team_name" ((g "team_name").getD .jnull)
      let fc := jset fc "last_espn_fetch" (.jstr (toString now))
      jset fc "awaiting_team_selection" (.jbool false)
    else if truthyO (g "needs_team_selection") then
      jset fc "awaiting_team_selection" (.jbool true)
    else fc
  else fc

/-- Merge of the secondary extraction output into `fantasy_context`
(app.py lines 1872-1893): deduplicate players (by value), append trades
unconditionally, keep only truthy entries.  `none` is an exception inside
the merge (swallowed by the surrounding `except`). -/
def mergeExtract (d : JObj) (fc : JObj) : Option JObj :=
  match asArr ((jget d "my_team").getD (.jarr [])),
        asArr ((jget d "interested_players").getD (.jarr [])),
        asArr ((jget d "trade_history").getD (.jarr [])),
        (jget fc "my_team").bind asArr,
        (jget fc "interested_players").bind asArr,
        (jget fc "trade_history").bind asArr with
  | some newMy, some newInt, some newTr, some my0, some int0, some tr0 =>
    let my1 := newMy.foldl (fun acc p =>
      if truthy p && !(acc.any (fun q => jeq q p)) then acc ++ [p] else acc) my0
    let int1 := newInt.foldl (fun acc p =>
      if truthy p && !(acc.any (fun q => jeq q p)) then acc ++ [p] else acc) int0
    let tr1 := tr0 ++ newTr.filter truthy
    some (jset (jset (jset fc "my_team" (.jarr my1))
      "interested_players" (.jarr int1)) "trade_history" (.jarr tr1))
  | _, _, _, _, _, _ => none

/-- The fantasy-question tail of the route (app.py lines 1814-1896):
regex-extract ESPN credentials from the raw user message and persist any
found, then run the secondary extraction call (its parsed output is
`env.extract`) and merge defensively; every exception in this block is
swallowed, keeping the last committed context. -/
def extractBlock (env : Env) (user_message : String) (fc : JObj) : JObj :=
  let lm := leagueIdSearch user_message
  let sm := s2Search user_message
  let wm := swidSearch user_message
  let fc1 := match lm with | some v => jset fc "espn_league_id" (.jstr v) | none => fc
  let fc2 := match sm with | some v => jset fc1 "espn_s2" (.jstr v) | none => fc1
  let fc3 := match wm with | some v => jset fc2 "espn_swid" (.jstr v) | none => fc2
  let fcSaved := if lm.isSome || sm.isSome || wm.isSome then fc3 else fc
  match env.extract with
  | none => fcSaved
  | some d => (mergeExtract d fcSaved).getD fcSaved

/-- The proactive injury gate of the route (app.py lines 1622-1653):
given the stored timestamp and fantasy context, returns the optional
prepend message and the new timestamp.  The source compares
`hours_since_check >= 24` on float division by 3600; over integral
seconds that is exactly `now - t >= 86400`. -/
def injuryCheckStep (env : Env) (last : Option Int) (fc0 : JObj) :
    Option String × Option Int :=
  let should_check_injuries :=
    match last with
    | none => true
    | some t => env.now - t ≥ 86400
  let has_fantasy_data :=
    truthyO (jget fc0 "my_team") || truthyO (jget fc0 "interested_players")
  if should_check_injuries && has_fantasy_data then
    let res := check_fantasy_team_injuries env.feed1 env.feed2 fc0
    let cnt := ratOf ((pyGet res "count").getD none)
    let m :=
      if truthyO ((pyGet res "success").getD none) && 0 < cnt then
        some (formatInjuryMessage res)
      else none
    (m, some env.now)
  else (none, last)

/-- The `/chat` route handler (app.py lines 1603-1924): proactive injury
gate, priming construction, the Orchestrator call, and the three
postprocessing steps, returning the updated row, the response text and
the diagram filesystem.  `none` models an error response (missing
message, model-call failure, or an uncaught exception). -/
def chatRoute (env : Env) (script : List ModelResponse) (conv : Conversation)
    (user_message : String) (fs : List String) :
    Option (Conversation × String × List String) :=
  if user_message = "" then none
  else
    match injuryCheckStep env conv.last_injury_check conv.fantasy_context with
    | (injury_update_message, last') =>
      (buildPrimers user_message conv.fantasy_context conv.recent_analysis_context).bind
        (fun primers =>
          (chat env script user_message primers conv.fantasy_context fs).bind
            (fun out =>
              match out with
              | (response, updated_history, tool_usage, fs') =>
                let rac' :=
                  if truthyO (jget tool_usage "used_analyze_player_routes_plays") then tool_usage
                  else if isAffirmative user_message && !conv.recent_analysis_context.isEmpty then
                    ([] : JObj)
                  else conv.recent_analysis_context
                let fc1 := postFantasyUpdate env.now tool_usage conv.fantasy_context
                let fc2 :=
                  if isFantasyQuestion user_message then extractBlock env user_message fc1
                  else fc1
                let final_response :=
                  match injury_update_message with
                  | some m => m ++ response
                  | none => response
                some ({ history := updated_history, fantasy_context := fc2,
                        recent_analysis_context := rac', last_injury_check := last' },
                      final_response, fs')))

/-- The `/reset` route handler (app.py lines 1926-1933): clear `history`
only. -/
def resetRoute (conv : Conversation) : Conversation :=
  { conv with history := [] }

/-! ## Accessors over results and message logs used by the theorems -/

/-- The `news` list of a `get_nfl_news` result. -/
def newsListOf (r : JVal) : List JVal :=
  match r with
  | .jobj o => (match jget o "news" with | some (.jarr l) => l | _ => [])
  | _ => []

/-- The `diagrams` list of a `generate_route_play_diagrams` result. -/
def diagramEntries (r : JVal) : List JVal :=
  match r with
  | .jobj o => (match jget o "diagrams" with | some (.jarr l) => l | _ => [])
  | _ => []

/-- The `url` values of the successful entries of a diagram result. -/
def diagramUrls (r : JVal) : List (Option JVal) :=
  (diagramEntries r).map (fun e => (pyGet e "url").getD none)

/-- The tool-invocation ids of a message's content blocks. -/
def toolUseIdsOf (m : Message) : List String :=
  match m.content with
  | .mstr _ => []
  | .mblocks bs => bs.filterMap (fun b =>
      match b with | .sToolUse i _ _ => some i | _ => none)

/-- The tool-result ids of a message's content blocks. -/
def toolResultIdsOf (m : Message) : List String :=
  match m.content with
  | .mstr _ => []
  | .mblocks bs => bs.filterMap (fun b =>
      match b with | .sToolResult i _ => some i | _ => none)

/-- The id of the first tool-invocation block of a serialized block list. -/
def firstSToolUseId : List SBlock → Option String
  | [] => none
  | .sToolUse i _ _ :: _ => some i
  | _ :: rest => firstSToolUseId rest

/-- Shape of the message segment the tool-use loop appends: zero or more
(assistant blocks, user tool-result) pairs where the single tool-result id
matches the first tool-invocation id of the preceding assistant message,
terminated by one plain assistant message. -/
def pairedTail : List Message → Bool
  | [⟨"assistant", .mstr _⟩] => true
  | ⟨"assistant", .mblocks c⟩ :: ⟨"user", .mblocks [.sToolResult rid _]⟩ :: rest =>
      (firstSToolUseId c == some rid) && pairedTail rest
  | _ => false

/-- The property claimed by C1: in every adjacent message pair, every
tool-invocation id of the first message occurs exactly once among the
tool-result ids of the immediately next message. -/
def allInvocationsPaired : List Message → Bool
  | [] => true
  | [_] => true
  | m :: m' :: rest =>
      (toolUseIdsOf m).all (fun i => (toolResultIdsOf m').count i = 1) &&
      allInvocationsPaired (m' :: rest)

/-! ## Shared lemmas about the dict model -/

theorem jget_jset_same (o : JObj) (k : String) (v : JVal) :
    jget (jset o k v) k = some v := by
  induction o with
  | nil => simp [jset, jget]
  | cons h t ih =>
    by_cases hk : h.1 = k
    · simp [jset, hk, jget]
    · simp [jset, hk, jget, ih]

theorem jget_jset_ne (o : JObj) (k k' : String) (v : JVal) (h : ¬ k' = k) :
    jget (jset o k' v) k = jget o k := by
  induction o with
  | nil => simp [jset, jget, h]
  | cons hd t ih =>
    by_cases hk : hd.1 = k'
    · simp [jset, hk, jget, h]
    · simp [jset, hk, jget, ih]

/-! ## Claim C9 -/

/-- C9: the reset operation sets the stored history to the empty list and
leaves every other `Conversation` field — in particular `fantasy_context`,
`recent_analysis_context`, and `last_injury_check` — unchanged. -/
theorem c9_reset_clears_history_only (c : Conversation) :
    (resetRoute c).history = [] ∧
    (resetRoute c).fantasy_context = c.fantasy_context ∧
    (resetRoute c).recent_analysis_context = c.recent_analysis_context ∧
    (resetRoute c).last_injury_check = c.last_injury_check :=
  ⟨rfl, rfl, rfl, rfl⟩

/-! ## Claim C7 -/

/-- A trivial ESPN environment for concrete runs. -/
def espnEnvNone : EspnEnv :=
  { connectAuth := fun _ _ _ _ => .error "timeout"
    connectNoAuth := fun _ _ => .error "timeout" }

/-- A base environment with inert external collaborators. -/
def cenvBase : Env :=
  { live_scores := .jobj [("success", .jbool true), ("games", .jarr []),
      ("week", .jnum 9), ("season_type", .jnum 2)]
    team_stats := fun _ => .jnull
    play_by_play := fun _ => .jnull
    highlights := fun _ _ => .jnull
    feed1 := none
    feed2 := none
    drawFails := fun _ _ => false
    espn := espnEnvNone
    extract := none
    now := 0 }

/-- Three short feed entries for the C7 counterexample. -/
def shortFeed : List FeedEntry :=
  [⟨some "t1", some "s1", some "l1", some "p1"⟩,
   ⟨some "t2", some "s2x", some "l2", some "p2"⟩,
   ⟨some "t3", some "s3x", some "l3", some "p3"⟩]

/-- Environment whose primary feed has the three short entries. -/
def cenvNews : Env := { cenvBase with feed1 := some shortFeed }

/-- C7 counterexample: the dispatch path caps the requested limit above at
20 (`min(limit, 20)`) but not below; a model-supplied `limit = -1` reaches
the handler, where Python's `entries[:-1]` yields two entries — more than
the requested `n = -1` — so "the total number of returned entries never
exceeds n" is false as stated for a call through the dispatch path. -/
theorem c7_counterexample :
    (dispatchTool cenvNews [] [] [] "get_nfl_news" [("limit", .jnum (-1))]).map
        (fun r => ((newsListOf r.1).length : Int)) = some 2 ∧
    ¬ ((2 : Int) ≤ -1) := by
  constructor
  · rfl
  · decide

/-- C7 (amended to non-negative limits): for every call with limit `n ≥ 0`,
the returned entry count never exceeds `n`; when the first feed yields at
least `n` entries the result comes entirely from the first feed (the
second feed only fills a shortfall); every returned entry is a constructed
news item; and every summary is truncated to its first 200 characters plus
an ellipsis exactly when the original exceeds 200 characters (so a summary
never exceeds 203 characters).  The dispatch path defaults the limit to 10
and hard-caps it at 20. -/
theorem c7_news_limit_fill_truncation (f1 f2 : Option (List FeedEntry)) (n : Int)
    (hn : 0 ≤ n) :
    (((newsListOf (get_nfl_news f1 f2 n)).length : Int) ≤ n) ∧
    (∀ es1, f1 = some es1 → n ≤ (es1.length : Int) →
      newsListOf (get_nfl_news f1 f2 n) =
        (pySliceTo n es1).map (fun e => JVal.jobj (newsItem "NFL Trade Rumors" e))) ∧
    (∀ item ∈ newsListOf (get_nfl_news f1 f2 n), ∃ src e, item = .jobj (newsItem src e)) ∧
    (∀ e : FeedEntry,
      (200 < (e.summary.getD "").length →
        newsSummary e = pyStrTake (e.summary.getD "N/A") 200 ++ "..." ∧
        (newsSummary e).length ≤ 203) ∧
      ((e.summary.getD "").length ≤ 200 →
        newsSummary e = e.summary.getD "N/A" ∧ (newsSummary e).length ≤ 200)) ∧
    (∀ env : Env, ∀ fc usage : JObj, ∀ fs : List String,
      dispatchTool env fc usage fs "get_nfl_news" [] =
        some (get_nfl_news env.feed1 env.feed2 10, usage, fs) ∧
      ∀ m : Int, dispatchTool env fc usage fs "get_nfl_news" [("limit", .jnum (m : Rat))] =
        some (get_nfl_news env.feed1 env.feed2 (min m 20), usage, fs)) := by
  have hslice : ∀ (α : Type) (l : List α) (m : Int), 0 ≤ m →
      ((pySliceTo m l).length : Int) ≤ m := by
    intro α l m hm
    simp only [pySliceTo, if_pos hm, List.length_take]
    omega
  have hslice0 : ∀ (α : Type) (l : List α) (m : Int), 0 ≤ m → (m ≤ l.length) →
      ((pySliceTo m l).length : Int) = m := by
    intro α l m hm hml
    simp only [pySliceTo, if_pos hm, List.length_take]
    omega
  have hlist : ∀ items : List JObj,
      newsListOf (if items.isEmpty then
          JVal.jobj [("success", .jbool false),
            ("message", .jstr "Could not fetch NFL news at this time"), ("news", .jarr [])]
        else
          JVal.jobj [("success", .jbool true), ("news", .jarr (items.map .jobj)),
            ("count", .jnum items.length)]) =
        if items.isEmpty then [] else items.map JVal.jobj := by
    intro items
    rcases hemp : items.isEmpty
    · rw [if_neg (by simp [hemp]), if_neg (by simp [hemp])]
      rfl
    · rw [if_pos (by simp [hemp]), if_pos (by simp [hemp])]
      rfl
  have hnews : ∀ (g1 g2 : Option (List FeedEntry)) (m : Int),
      newsListOf (get_nfl_news g1 g2 m) =
        if (newsItems g1 g2 m).isEmpty then [] else (newsItems g1 g2 m).map JVal.jobj := by
    intro g1 g2 m
    exact hlist (newsItems g1 g2 m)
  have hlen1 : ((newsItems1 f1 n).length : Int) ≤ n := by
    cases f1 with
    | none => simpa [newsItems1] using hn
    | some es1 => simpa [newsItems1] using hslice _ es1 n hn
  have hlenAll : ((newsItems f1 f2 n).length : Int) ≤ n := by
    simp only [newsItems, List.length_append]
    by_cases h2 : (((newsItems1 f1 n).length : Int) < n)
    · cases f2 with
      | none => simpa [h2] using hlen1
      | some es2 =>
        simp only [h2, if_true]
        have b2 := hslice _ es2 (n - (newsItems1 f1 n).length) (by omega)
        simp only [List.length_map]
        omega
    · simp only [h2, if_false, List.length_nil, Nat.add_zero]
      exact hlen1
  refine ⟨?_, ?_, ?_, ?_, ?_⟩
  · -- count never exceeds n
    rw [hnews]
    rcases hemp : (newsItems f1 f2 n).isEmpty
    · rw [if_neg (by simp [hemp])]
      simpa [List.length_map] using hlenAll
    · rw [if_pos (by simp [hemp])]
      simpa using hn
  · -- first feed sufficient → result entirely from the first feed
    intro es1 hf1 hlen
    subst hf1
    have hfull : (((newsItems1 (some es1) n)).length : Int) = n := by
      simpa [newsItems1, List.length_map] using hslice0 _ es1 n hn hlen
    have heq : newsItems (some es1) f2 n = newsItems1 (some es1) n := by
      simp only [newsItems]
      rw [if_neg (by omega)]
      simp
    rw [hnews, heq]
    rcases hemp : (newsItems1 (some es1) n).isEmpty
    · rw [if_neg (by simp [hemp])]
      simp [newsItems1, List.map_map, Function.comp]
    · have h0 : (newsItems1 (some es1) n) = [] := List.isEmpty_iff.mp hemp
      rw [if_pos (by simp [hemp])]
      have h1 : pySliceTo n es1 = [] := by
        have := h0
        simp only [newsItems1] at this
        exact List.map_eq_nil_iff.mp this
      simp [h1]
  · -- every returned item is a constructed news item
    intro item hitem
    rw [hnews] at hitem
    rcases hemp : (newsItems f1 f2 n).isEmpty
    · rw [if_neg (by simp [hemp])] at hitem
      rcases List.mem_map.mp hitem with ⟨x, hx, rfl⟩
      have hx' : ∀ y ∈ newsItems f1 f2 n, ∃ src e, y = newsItem src e := by
        intro y hy
        simp only [newsItems] at hy
        rcases List.mem_append.mp hy with h | h
        · cases f1 with
          | none => simp [newsItems1] at h
          | some es1 =>
            rcases List.mem_map.mp (by simpa [newsItems1] using h) with ⟨e, _, rfl⟩
            exact ⟨_, _, rfl⟩
        · by_cases h2 : (((newsItems1 f1 n).length : Int) < n)
          · rw [if_pos h2] at h
            cases f2 with
            | none => simp at h
            | some es2 =>
              rcases List.mem_map.mp (by simpa using h) with ⟨e, _, rfl⟩
              exact ⟨_, _, rfl⟩
          · rw [if_neg h2] at h
            simp at h
      rcases hx' x hx with ⟨src, e, rfl⟩
      exact ⟨src, e, rfl⟩
    · rw [if_pos (by simp [hemp])] at hitem
      simp at hitem
  · -- summary truncation shape
    intro e
    constructor
    · intro hlong
      have : newsSummary e = pyStrTake (e.summary.getD "N/A") 200 ++ "..." := by
        simp [newsSummary, hlong]
      refine ⟨this, ?_⟩
      rw [this]
      have h1 : (pyStrTake (e.summary.getD "N/A") 200).length ≤ 200 := by
        simp only [pyStrTake, String.length]
        exact List.length_take_le 200 (e.summary.getD "N/A").toList
      calc (pyStrTake (e.summary.getD "N/A") 200 ++ "...").length
          = (pyStrTake (e.summary.getD "N/A") 200).length + "...".length :=
            String.length_append _ _
        _ ≤ 203 := by
            have h3 : "...".length = 3 := rfl
            omega
    · intro hshort
      have hs : newsSummary e = e.summary.getD "N/A" := by
        simp [newsSummary]
        omega
      refine ⟨hs, ?_⟩
      rw [hs]
      cases hsum : e.summary with
      | none => decide
      | some s =>
        rw [hsum] at hshort
        simpa using hshort
  · -- dispatch path: default 10, hard cap 20
    intro env fc usage fs
    constructor
    · rfl
    · intro m
      have hden : ((m : Rat)).den = 1 := Rat.den_intCast m
      have hnum : ((m : Rat)).num = m := Rat.num_intCast m
      simp [dispatchTool, asInt, hden, hnum, jget]

/-- A feed entry whose summary is 250 characters long. -/
def longEntry : FeedEntry :=
  ⟨some "tL", some (String.mk (List.replicate 250 'a')), some "lL", some "pL"⟩

set_option maxRecDepth 4000 in
/-- C7 witness: the amended theorem applied at a concrete non-negative
limit, with the concrete truncation facts evaluated. -/
theorem c7_news_limit_fill_truncation_witness :
    (((newsListOf (get_nfl_news (some [longEntry]) none 1)).length : Int) ≤ 1) ∧
    newsSummary longEntry = pyStrTake (longEntry.summary.getD "N/A") 200 ++ "..." := by
  have h := c7_news_limit_fill_truncation (some [longEntry]) none 1 (by decide)
  exact ⟨h.1, ((h.2.2.2.1 longEntry).1 (by decide)).1⟩

/-! ## Claim C8 -/

/-- Unfolding equation for one step of the diagram loop. -/
theorem genLoop_cons (df : String → String → Bool) (t : String) (v : JVal)
    (rest : List JVal) (fs : List String) :
    genDiagramsLoop df t (v :: rest) fs =
      (if fs.contains (diagramFilename t (pyStr v)) then
        ([("name", v),
          ("url", .jstr ("/static/diagrams/" ++ diagramFilename t (pyStr v))),
          ("success", .jbool true)] :: (genDiagramsLoop df t rest fs).1,
         (genDiagramsLoop df t rest fs).2)
      else if drawRaises df t v then
        ([("name", v), ("error", .jstr "draw error"), ("success", .jbool false)] ::
           (genDiagramsLoop df t rest fs).1,
         (genDiagramsLoop df t rest fs).2)
      else
        ([("name", v),
          ("url", .jstr ("/static/diagrams/" ++ diagramFilename t (pyStr v))),
          ("success", .jbool true)] ::
           (genDiagramsLoop df t rest (fs ++ [diagramFilename t (pyStr v)])).1,
         (genDiagramsLoop df t rest (fs ++ [diagramFilename t (pyStr v)])).2)) := by
  rfl

/-- C8: (i) the diagram handler is idempotent per (name, type) pair: when
the render does not fail, both the first call and a repeated call return
the URL derived from the content hash of type and name, and the second
call does not touch the filesystem (the artifact is reused, not
regenerated); (ii) a failing name in a batch yields its own
`success: false` entry while the entries and filesystem effects of the
other names are exactly those of the batch without it, and the handler
itself still returns `success: true` (it never raises). -/
theorem c8_diagram_idempotent_and_batch_isolated (df : String → String → Bool)
    (t name : String) (fs : List String) (names1 names2 : List JVal) (bad : JVal)
    (hgood : df t name = false)
    (hbad : drawRaises df t bad = true)
    (hnew : ((genDiagramsLoop df t names1 fs).2).contains (diagramFilename t (pyStr bad)) = false) :
    (diagramUrls (generate_route_play_diagrams df [.jstr name] t fs).1 =
        [some (.jstr ("/static/diagrams/" ++ diagramFilename t name))] ∧
      diagramUrls (generate_route_play_diagrams df [.jstr name] t
          (generate_route_play_diagrams df [.jstr name] t fs).2).1 =
        [some (.jstr ("/static/diagrams/" ++ diagramFilename t name))] ∧
      (generate_route_play_diagrams df [.jstr name] t
          (generate_route_play_diagrams df [.jstr name] t fs).2).2 =
        (generate_route_play_diagrams df [.jstr name] t fs).2) ∧
    (genDiagramsLoop df t (names1 ++ bad :: names2) fs =
      ((genDiagramsLoop df t names1 fs).1 ++
        ([("name", bad), ("error", .jstr "draw error"), ("success", .jbool false)] ::
          (genDiagramsLoop df t names2 (genDiagramsLoop df t names1 fs).2).1),
       (genDiagramsLoop df t names2 (genDiagramsLoop df t names1 fs).2).2)) ∧
    (∀ (names : List JVal) (fs0 : List String),
      pyGet (generate_route_play_diagrams df names t fs0).1 "success" =
        some (some (.jbool true))) := by
  have hdr : drawRaises df t (.jstr name) = false := by
    simp [drawRaises, hgood, asStr, pyStr]
  have hpy : pyStr (JVal.jstr name) = name := rfl
  refine ⟨?_, ?_, ?_⟩
  · by_cases hc : diagramFilename t name ∈ fs
    · refine ⟨?_, ?_, ?_⟩ <;>
        simp [generate_route_play_diagrams, genDiagramsLoop, hpy, hc,
          diagramUrls, diagramEntries, pyGet, jget]
    · have hc2 : diagramFilename t name ∈ fs ++ [diagramFilename t name] := by simp
      refine ⟨?_, ?_, ?_⟩ <;>
        simp [generate_route_play_diagrams, genDiagramsLoop, hpy, hc, hdr, hc2,
          diagramUrls, diagramEntries, pyGet, jget]
  · induction names1 generalizing fs with
    | nil =>
      have h0 : genDiagramsLoop df t ([] : List JVal) fs = ([], fs) := rfl
      rw [h0] at hnew
      rw [List.nil_append, genLoop_cons, if_neg (by rw [hnew]; simp), if_pos hbad, h0]
      simp
    | cons v vs ih =>
      rw [genLoop_cons] at hnew
      by_cases hc : fs.contains (diagramFilename t (pyStr v)) = true
      · rw [if_pos hc] at hnew
        rw [List.cons_append, genLoop_cons, if_pos hc, genLoop_cons, if_pos hc,
          ih _ hnew]
        simp
      · rw [if_neg hc] at hnew
        by_cases hra : drawRaises df t v = true
        · rw [if_pos hra] at hnew
          rw [List.cons_append, genLoop_cons, if_neg hc, if_pos hra, genLoop_cons,
            if_neg hc, if_pos hra, ih _ hnew]
          simp
        · rw [if_neg hra] at hnew
          rw [List.cons_append, genLoop_cons, if_neg hc, if_neg hra, genLoop_cons,
            if_neg hc, if_neg hra, ih _ hnew]
          simp
  · intro names fs0
    rfl

/-- C8 witness: concrete double call on ("Slant", "route") over an empty
filesystem, and a concrete two-name batch where drawing "Wheel" fails. -/
theorem c8_diagram_idempotent_and_batch_isolated_witness :
    (diagramUrls (generate_route_play_diagrams (fun _ _ => false) [.jstr "Slant"] "route" []).1 =
        [some (.jstr ("/static/diagrams/" ++ diagramFilename "route" "Slant"))] ∧
      diagramUrls (generate_route_play_diagrams (fun _ _ => false) [.jstr "Slant"] "route"
          (generate_route_play_diagrams (fun _ _ => false) [.jstr "Slant"] "route" []).2).1 =
        [some (.jstr ("/static/diagrams/" ++ diagramFilename "route" "Slant"))] ∧
      (generate_route_play_diagrams (fun _ _ => false) [.jstr "Slant"] "route"
          (generate_route_play_diagrams (fun _ _ => false) [.jstr "Slant"] "route" []).2).2 =
        (generate_route_play_diagrams (fun _ _ => false) [.jstr "Slant"] "route" []).2) ∧
    (genDiagramsLoop (fun _ n => n = "Wheel") "route" [.jstr "Post", .jstr "Wheel"] [] =
      ((genDiagramsLoop (fun _ n => n = "Wheel") "route" [.jstr "Post"] []).1 ++
        ([("name", .jstr "Wheel"), ("error", .jstr "draw error"), ("success", .jbool false)] ::
          (genDiagramsLoop (fun _ n => n = "Wheel") "route" []
            (genDiagramsLoop (fun _ n => n = "Wheel") "route" [.jstr "Post"] []).2).1),
       (genDiagramsLoop (fun _ n => n = "Wheel") "route" []
         (genDiagramsLoop (fun _ n => n = "Wheel") "route" [.jstr "Post"] []).2).2)) := by
  have h := c8_diagram_idempotent_and_batch_isolated (fun _ n => n = "Wheel")
    "route" "Slant" [] [.jstr "Post"] [] (.jstr "Wheel") (by decide) (by decide) (by decide)
  have h2 := c8_diagram_idempotent_and_batch_isolated (fun _ _ => false)
    "route" "Slant" [] [] [] .jnull rfl (by decide) (by decide)
  exact ⟨h2.1, h.2.1⟩

/-! ## Claim C2 -/

/-- A model response requesting the undeclared tool "frobnicate". -/
def respUnknownTool : ModelResponse :=
  { stop_reason := "tool_use", content := [.rToolUse "A" "frobnicate" []] }

/-- A terminal model response with a plain text answer. -/
def respDone : ModelResponse :=
  { stop_reason := "end_turn", content := [.rText "done"] }

/-- C2 counterexample: on a hallucinated tool name the loop does continue
and return a final answer, but the synthesized paired result is
`{"error": "Unknown tool"}` — it contains no `success` key at all, so the
claim that it contains at minimum `success: false` is false on this run. -/
theorem c2_counterexample :
    chat cenvBase [respUnknownTool, respDone] "hi" [] [] [] =
      some ("done",
        [⟨"user", .mstr "hi"⟩,
         ⟨"assistant", .mblocks [.sToolUse "A" "frobnicate" []]⟩,
         ⟨"user", .mblocks [.sToolResult "A" (.jobj [("error", .jstr "Unknown tool")])]⟩,
         ⟨"assistant", .mstr "done"⟩],
        [("used_analyze_player_routes_plays", .jbool false), ("analysis_data", .jnull)],
        []) ∧
    jget [("error", .jstr "Unknown tool")] "success" = none := ⟨rfl, rfl⟩

/-- C2 (amended: the synthesized result is `{"error": "Unknown tool"}`,
with no `success` field): for every undeclared tool name the dispatch
synthesizes that result and leaves the usage record and filesystem
untouched, and a run whose tool-requesting responses all name unknown
tools still terminates with a final answer rather than raising. -/
theorem c2_unknown_tool_never_aborts (env : Env) (fc : JObj) (msg : String)
    (h0 : List Message) (fs : List String) (rs : List ModelResponse)
    (rfin : ModelResponse) (hfin : rfin.stop_reason ≠ "tool_use")
    (hrs : ∀ r ∈ rs, r.stop_reason = "tool_use" ∧
      ∃ x, firstToolUse r.content = some x ∧ x.2.1 ∉ knownToolNames) :
    (∀ (name : String) (input usage : JObj) (fs0 : List String),
      name ∉ knownToolNames →
        dispatchTool env fc usage fs0 name input = some (unknownToolResult, usage, fs0)) ∧
    (chat env (rs ++ [rfin]) msg h0 fc fs).isSome = true := by
  have hdisp : ∀ (name : String) (input usage : JObj) (fs0 : List String),
      name ∉ knownToolNames →
        dispatchTool env fc usage fs0 name input = some (unknownToolResult, usage, fs0) := by
    intro name input usage fs0 hname
    simp only [knownToolNames, List.mem_cons, List.not_mem_nil, or_false, not_or] at hname
    obtain ⟨h1, h2, h3, h4, h5, h6, h7, h8, h9⟩ := hname
    simp [dispatchTool, h1, h2, h3, h4, h5, h6, h7, h8, h9]
  refine ⟨hdisp, ?_⟩
  have hfinloop : ∀ (s : List ModelResponse) (h' : List Message) (u' : JObj)
      (fs' : List String), (chatLoop env fc s rfin h' u' fs').isSome = true := by
    intro s h' u' fs'
    rw [chatLoop, if_neg hfin]
    rfl
  have aux : ∀ (rs' : List ModelResponse),
      (∀ r ∈ rs', r.stop_reason = "tool_use" ∧
        ∃ x, firstToolUse r.content = some x ∧ x.2.1 ∉ knownToolNames) →
      ∀ (r : ModelResponse),
        ((r.stop_reason = "tool_use" ∧
          ∃ x, firstToolUse r.content = some x ∧ x.2.1 ∉ knownToolNames) ∨ r = rfin) →
      ∀ (h : List Message) (u : JObj) (fs0 : List String),
        (chatLoop env fc (rs' ++ [rfin]) r h u fs0).isSome = true := by
    intro rs'
    induction rs' with
    | nil =>
      intro _ r hr h u fs0
      rcases hr with ⟨hstop, ⟨⟨i, n, inp⟩, hfirst, hn⟩⟩ | rfl
      · rw [chatLoop]
        rw [if_pos hstop, hfirst]
        dsimp only
        rw [hdisp n inp u fs0 hn]
        dsimp only
        exact hfinloop _ _ _ _
      · exact hfinloop _ _ _ _
    | cons a rs'' ih =>
      intro hmem r hr h u fs0
      rcases hr with ⟨hstop, ⟨⟨i, n, inp⟩, hfirst, hn⟩⟩ | rfl
      · rw [chatLoop]
        rw [if_pos hstop, hfirst]
        dsimp only
        rw [hdisp n inp u fs0 hn]
        dsimp only
        exact ih (fun r' hr' => hmem r' (List.mem_cons_of_mem a hr'))
          a (Or.inl (hmem a (List.mem_cons_self a rs''))) _ _ _
      · exact hfinloop _ _ _ _
  cases rs with
  | nil =>
    have := hfinloop []
      (h0 ++ [⟨"user", .mstr msg⟩])
      [("used_analyze_player_routes_plays", .jbool false), ("analysis_data", .jnull)] fs
    simpa [chat] using this
  | cons a rs' =>
    have := aux rs' (fun r hr => hrs r (List.mem_cons_of_mem a hr))
      a (Or.inl (hrs a (List.mem_cons_self a rs')))
      (h0 ++ [⟨"user", .mstr msg⟩])
      [("used_analyze_player_routes_plays", .jbool false), ("analysis_data", .jnull)] fs
    simpa [chat] using this

/-- C2 witness: the amended theorem applied to a concrete one-iteration
run requesting the unknown tool "zzz". -/
theorem c2_unknown_tool_never_aborts_witness :
    dispatchTool cenvBase [] [] [] "zzz" [] = some (unknownToolResult, [], []) ∧
    (chat cenvBase
      [{ stop_reason := "tool_use", content := [.rToolUse "B" "zzz" []] }, respDone]
      "hello" [] [] []).isSome = true := by
  have h := c2_unknown_tool_never_aborts cenvBase [] "hello" [] []
    [{ stop_reason := "tool_use", content := [.rToolUse "B" "zzz" []] }] respDone
    (by decide)
    (by
      intro r hr
      simp only [List.mem_singleton] at hr
      subst hr
      exact ⟨rfl, ⟨("B", "zzz", []), rfl, by decide⟩⟩)
  exact ⟨h.1 "zzz" [] [] [] (by decide), h.2⟩

/-! ## Claim C1 -/

/-- Serialization preserves the id of the first tool-invocation block. -/
theorem firstSToolUseId_serialize (bs : List RBlock) (i n : String) (inp : JObj)
    (h : firstToolUse bs = some (i, n, inp)) :
    firstSToolUseId (serializeBlocks bs) = some i := by
  induction bs with
  | nil => simp [firstToolUse] at h
  | cons b rest ih =>
    cases b with
    | rText t =>
      simp only [firstToolUse] at h
      simpa [serializeBlocks, firstSToolUseId] using ih h
    | rToolUse i' n' inp' =>
      simp only [firstToolUse, Option.some_inj] at h
      obtain ⟨rfl, rfl, rfl⟩ := Prod.mk.injEq .. ▸ (by exact h : (i', n', inp') = (i, n, inp))
      simp [serializeBlocks, firstSToolUseId]

/-- A model response emitting two tool invocations in one turn. -/
def respTwoTools : ModelResponse :=
  { stop_reason := "tool_use",
    content := [.rToolUse "A" "get_live_scores" [], .rToolUse "B" "get_live_scores" []] }

/-- C1 counterexample: when one model response carries two tool-invocation
blocks, both are serialized into the appended assistant message but only
the first receives a paired tool-result in the next message; the second
invocation id ("B") has no matching result, so the claim's "every
tool-invocation content block ... exactly one tool-result ... matching"
is false on this run (which otherwise completes normally). -/
theorem c1_counterexample :
    (chat cenvBase [respTwoTools, respDone] "hi" [] [] []).map
      (fun r => allInvocationsPaired r.2.1) = some false := rfl

/-- C1 (amended: the pairing holds for the first tool-invocation block of
each iteration, and additional invocation blocks in the same response
receive no paired result): every successful run appends the user message
and then, for some iteration count N, exactly N (assistant, user) message
pairs followed by one final assistant message, where each appended user
message consists of exactly one tool-result block whose id matches the
first tool-invocation id of the immediately preceding assistant
message. -/
theorem c1_loop_appends_paired_messages (env : Env) (fc : JObj)
    (script : List ModelResponse) (msg : String) (h0 : List Message)
    (fs : List String) (final : String) (log : List Message) (usage : JObj)
    (fs' : List String)
    (h : chat env script msg h0 fc fs = some (final, log, usage, fs')) :
    ∃ tail N, log = h0 ++ (⟨"user", .mstr msg⟩ :: tail) ∧
      pairedTail tail = true ∧ tail.length = 2 * N + 1 := by
  have loopSpec : ∀ (s : List ModelResponse) (r : ModelResponse) (hist : List Message)
      (u : JObj) (fs0 : List String) (out : String × List Message × JObj × List String),
      chatLoop env fc s r hist u fs0 = some out →
      ∃ tail N, out.2.1 = hist ++ tail ∧ pairedTail tail = true ∧
        tail.length = 2 * N + 1 := by
    intro s
    induction s with
    | nil =>
      intro r hist u fs0 out hl
      rw [chatLoop] at hl
      by_cases hstop : r.stop_reason = "tool_use"
      · rw [if_pos hstop] at hl
        rcases hft : firstToolUse r.content with _ | ⟨i, n, inp⟩
        · rw [hft] at hl; exact absurd hl (by simp)
        · rw [hft] at hl
          dsimp only at hl
          rcases hd : dispatchTool env fc u fs0 n inp with _ | ⟨tr, u2, fs2⟩
          · rw [hd] at hl; exact absurd hl (by simp)
          · rw [hd] at hl
            dsimp only at hl
            exact absurd hl (by simp)
      · rw [if_neg hstop] at hl
        dsimp only at hl
        obtain rfl := (Option.some_inj.mp hl).symm
        refine ⟨[⟨"assistant", .mstr (finalText r.content)⟩], 0, by simp, rfl, rfl⟩
    | cons next rest ih =>
      intro r hist u fs0 out hl
      rw [chatLoop] at hl
      by_cases hstop : r.stop_reason = "tool_use"
      · rw [if_pos hstop] at hl
        rcases hft : firstToolUse r.content with _ | ⟨i, n, inp⟩
        · rw [hft] at hl; exact absurd hl (by simp)
        · rw [hft] at hl
          dsimp only at hl
          rcases hd : dispatchTool env fc u fs0 n inp with _ | ⟨tr, u2, fs2⟩
          · rw [hd] at hl; exact absurd hl (by simp)
          · rw [hd] at hl
            dsimp only at hl
            obtain ⟨tail', N', htail', hpaired', hlen'⟩ := ih next _ _ _ _ hl
            refine ⟨⟨"assistant", .mblocks (serializeBlocks r.content)⟩ ::
              ⟨"user", .mblocks [.sToolResult i tr]⟩ :: tail', N' + 1, ?_, ?_, ?_⟩
            · rw [htail']
              simp
            · have hid : firstSToolUseId (serializeBlocks r.content) = some i :=
                firstSToolUseId_serialize r.content i n inp hft
              rw [pairedTail, hid]
              simpa using hpaired'
            · simp only [List.length_cons, hlen']
              omega
      · rw [if_neg hstop] at hl
        dsimp only at hl
        obtain rfl := (Option.some_inj.mp hl).symm
        refine ⟨[⟨"assistant", .mstr (finalText r.content)⟩], 0, by simp, rfl, rfl⟩
  simp only [chat] at h
  cases script with
  | nil => exact absurd h (by simp)
  | cons r0 rest =>
    dsimp only at h
    obtain ⟨tail, N, htail, hp, hlen⟩ := loopSpec rest r0 _ _ _ _ h
    refine ⟨tail, N, ?_, hp, hlen⟩
    simpa using htail

/-- C1 witness: the amended theorem applied to a concrete one-iteration
run (one tool call, then a final answer). -/
theorem c1_loop_appends_paired_messages_witness :
    ∃ tail N,
      (chat cenvBase
        [{ stop_reason := "tool_use", content := [.rToolUse "A" "get_live_scores" []] },
         respDone] "score?" [] [] []).map (fun r => r.2.1) =
        some ([] ++ (⟨"user", .mstr "score?"⟩ :: tail)) ∧
      pairedTail tail = true ∧ tail.length = 2 * N + 1 := by
  obtain ⟨tail, N, h1, h2, h3⟩ := c1_loop_appends_paired_messages cenvBase []
    [{ stop_reason := "tool_use", content := [.rToolUse "A" "get_live_scores" []] },
     respDone] "score?" [] [] "done"
    ([⟨"user", .mstr "score?"⟩,
      ⟨"assistant", .mblocks [.sToolUse "A" "get_live_scores" []]⟩,
      ⟨"user", .mblocks [.sToolResult "A" cenvBase.live_scores]⟩,
      ⟨"assistant", .mstr "done"⟩])
    [("used_analyze_player_routes_plays", .jbool false), ("analysis_data", .jnull)]
    [] rfl
  exact ⟨tail, N, by rw [← h1]; rfl, h2, h3⟩

/-! ## Claim C4 -/

/-- A concrete two-team league snapshot with a current-week box score. -/
def ldC4 : LeagueData :=
  { current_week := 5
    settings_name := some "Test League"
    teams :=
      [{ team_name := "Alpha", owner := some "O1", wins := 3, losses := 2,
         points_for := 500, points_against := 450,
         roster := [{ name := "P1", position := "QB", slot_position := some "QB",
                      proTeam := some "KC", total_points := some 100,
                      projected_total_points := some 120, injuryStatus := some "ACTIVE" }] },
       { team_name := "Beta", owner := some "O2", wins := 2, losses := 3,
         points_for := 480, points_against := 470, roster := [] }]
    box_scores := some
      [{ home_team := "Alpha", away_team := "Beta",
         home_score := 100, away_score := 90, projected := some (110, 95) }] }

/-- ESPN environment serving that league. -/
def espnEnvC4 : EspnEnv :=
  { connectAuth := fun _ _ _ _ => .ok ldC4
    connectNoAuth := fun _ _ => .ok ldC4 }

/-- The fantasy-roster tool result for a successful full-roster fetch. -/
def ftdC4 : JVal :=
  get_fantasy_team espnEnvC4 (some (.jstr "123")) none none 2025 (some (.jstr "Alpha"))

/-- The `tool_usage_data` dict after that fetch, as the loop records it. -/
def usageC4 : JObj :=
  [("used_analyze_player_routes_plays", .jbool false), ("analysis_data", .jnull),
   ("used_get_fantasy_team", .jbool true), ("fantasy_team_data", ftdC4)]

/-- C4 failing input, evaluated: the successful fetch carries its matchup
under the key `current_matchup` (line 418), but the route postprocessor
reads `fantasy_team_data.get('matchup', {})` (line 1796) — a key the tool
never produces — so the persisted `espn_matchup` is always the empty dict
even though a real matchup was returned; roster, standings, team name and
the awaiting-team-selection flag are merged as the claim states. -/
theorem c4_matchup_key_mismatch :
    pyGet ftdC4 "current_matchup" =
      some (some (.jobj [("week", .jnum 5), ("opponent", .jstr "Beta"),
        ("my_score", .jnum 100), ("opponent_score", .jnum 90),
        ("my_projected", .jnum 110)])) ∧
    pyGet ftdC4 "matchup" = some none ∧
    (jget (postFantasyUpdate 0 usageC4 freshConversation.fantasy_context) "espn_matchup" =
       some (.jobj []) ∧
     jget (postFantasyUpdate 0 usageC4 freshConversation.fantasy_context) "espn_team_name" =
       some (.jstr "Alpha") ∧
     jget (postFantasyUpdate 0 usageC4 freshConversation.fantasy_context)
       "awaiting_team_selection" = some (.jbool false) ∧
     jget (postFantasyUpdate 0 usageC4 freshConversation.fantasy_context) "espn_roster" =
       (pyGet ftdC4 "roster").getD none ∧
     jget (postFantasyUpdate 0 usageC4 freshConversation.fantasy_context) "espn_standings" =
       (pyGet ftdC4 "standings").getD none) ∧
    (jget (postFantasyUpdate 7 [("used_analyze_player_routes_plays", .jbool false),
        ("analysis_data", .jnull), ("used_get_fantasy_team", .jbool true),
        ("fantasy_team_data", get_fantasy_team espnEnvC4 (some (.jstr "123")) none none 2025 none)]
        freshConversation.fantasy_context) "awaiting_team_selection" = some (.jbool true)) :=
  by refine ⟨?_, ?_, ⟨?_, ?_, ?_, ?_, ?_⟩, ?_⟩ <;> rfl

/-! ## Claim C3 -/

/-- Stored analysis context from a prior analytics turn (C3 inputs). -/
def racC3 : JObj :=
  [("used_analyze_player_routes_plays", .jbool true),
   ("analysis_data", .jobj [("player_name", .jstr "Travis Kelce"),
     ("position", .jstr "WR"), ("result", .jobj [("success", .jbool true)])])]

/-- Fantasy context with the awaiting-team-selection flag set (C3 inputs). -/
def fcC3 : JObj :=
  [("my_team", .jarr []), ("interested_players", .jarr []),
   ("trade_history", .jarr []), ("awaiting_team_selection", .jbool true)]

/-- C3 counterexample: with the awaiting-team-selection flag set, a short
affirmative "yes" with non-empty analysis context injects BOTH the
affirmative-analysis primer pair and the team-selection primer pair — four
priming messages, the analysis pair first — so neither "at most one
priming context block" nor "awaiting-team-selection first" holds: the two
checks are independent `if`s in the source (lines 1670 and 1702), not one
precedence chain. -/
theorem c3_counterexample :
    (buildPrimers "yes" fcC3 racC3).map List.length = some 4 := rfl

/-- `buildAnalysisPrimer` yields either no messages or one primer pair. -/
theorem analysisPrimer_len (m : String) (rac : JObj) (l : List Message)
    (h : buildAnalysisPrimer m rac = some l) : l = [] ∨ l.length = 2 := by
  simp only [buildAnalysisPrimer] at h
  split at h
  · rcases Option.map_eq_some'.mp h with ⟨ctx, _, rfl⟩
    right; rfl
  · left; exact (Option.some_inj.mp h).symm

/-- `buildFantasyPrimer` yields exactly one primer pair on success. -/
theorem fantasyPrimer_len (fc : JObj) (p : List Message)
    (h : buildFantasyPrimer fc = some p) : p.length = 2 := by
  simp only [buildFantasyPrimer] at h
  rcases Option.map_eq_some'.mp h with ⟨ctx, _, rfl⟩
  rfl

/-- C3 (amended): per turn the route injects the affirmative-analysis
primer pair whenever its own condition holds — independently of the
team-selection flag — followed by at most one of the team-selection or
fantasy primers, the team-selection flag taking precedence over the
fantasy branch; so up to two primer pairs (four messages) can be injected
in a single turn, and only the fantasy primer (not the analysis primer)
is suppressed by the awaiting-team-selection flag. -/
theorem c3_primer_injection_structure (msg : String) (fc rac : JObj)
    (l : List Message) (h : buildPrimers msg fc rac = some l) :
    ∃ a b, l = a ++ b ∧
      (a = [] ∨ (a.length = 2 ∧ isAffirmative msg = true ∧ rac.isEmpty = false)) ∧
      ((isAffirmative msg && !rac.isEmpty) = false → a = []) ∧
      (truthyO (jget fc "awaiting_team_selection") = true → b = teamSelectionPrimer msg) ∧
      (truthyO (jget fc "awaiting_team_selection") = false →
        ((isFantasyQuestion msg && hasFantasyContext fc) = true →
          buildFantasyPrimer fc = some b ∧ b.length = 2) ∧
        ((isFantasyQuestion msg && hasFantasyContext fc) = false → b = [])) ∧
      l.length ≤ 4 := by
  simp only [buildPrimers] at h
  obtain ⟨hist1, h1, h2⟩ := Option.bind_eq_some.mp h
  have ha : hist1 = [] ∨ (hist1.length = 2 ∧ isAffirmative msg = true ∧ rac.isEmpty = false) := by
    by_cases hcond : (isAffirmative msg && !rac.isEmpty) = true
    · rw [if_pos hcond] at h1
      rcases analysisPrimer_len msg rac hist1 h1 with h' | h'
      · left; exact h'
      · right
        refine ⟨h', ?_, ?_⟩
        · have := hcond
          simp only [Bool.and_eq_true] at this
          exact this.1
        · have := hcond
          simp only [Bool.and_eq_true, Bool.not_eq_true'] at this
          exact this.2
    · rw [if_neg hcond] at h1
      left
      exact (Option.some_inj.mp h1).symm
  have ha0 : (isAffirmative msg && !rac.isEmpty) = false → hist1 = [] := by
    intro hcond
    rw [if_neg (by simp [hcond])] at h1
    exact (Option.some_inj.mp h1).symm
  have hlen1 : hist1.length ≤ 2 := by
    rcases ha with rfl | ⟨h2', _⟩
    · simp
    · omega
  by_cases haw : truthyO (jget fc "awaiting_team_selection") = true
  · rw [if_pos haw] at h2
    refine ⟨hist1, teamSelectionPrimer msg, ?_, ha, ha0, fun _ => rfl, ?_, ?_⟩
    · exact (Option.some_inj.mp h2).symm
    · intro hne; rw [haw] at hne; exact absurd hne (by simp)
    · have : l = hist1 ++ teamSelectionPrimer msg := (Option.some_inj.mp h2).symm
      rw [this, List.length_append]
      have : (teamSelectionPrimer msg).length = 2 := rfl
      omega
  · have haw' : truthyO (jget fc "awaiting_team_selection") = false := by
      simpa using haw
    rw [if_neg (by simp [haw'])] at h2
    by_cases hfq : isFantasyQuestion msg = true
    · rw [if_pos hfq] at h2
      by_cases hctx : hasFantasyContext fc = true
      · rw [if_pos hctx] at h2
        obtain ⟨p, hp, hl⟩ := Option.map_eq_some'.mp h2
        have hplen := fantasyPrimer_len fc p hp
        refine ⟨hist1, p, hl.symm, ha, ha0, ?_, ?_, ?_⟩
        · intro hcontra; rw [haw'] at hcontra; exact absurd hcontra (by simp)
        · intro _
          constructor
          · intro _; exact ⟨hp, hplen⟩
          · intro hcontra
            rw [hfq, hctx] at hcontra
            exact absurd hcontra (by simp)
        · rw [hl.symm, List.length_append]
          omega
      · have hctx' : hasFantasyContext fc = false := by simpa using hctx
        rw [if_neg (by simp [hctx'])] at h2
        refine ⟨hist1, [], ?_, ha, ha0, ?_, ?_, ?_⟩
        · simpa using (Option.some_inj.mp h2).symm
        · intro hcontra; rw [haw'] at hcontra; exact absurd hcontra (by simp)
        · intro _
          exact ⟨fun hcontra => by rw [hctx'] at hcontra; simp at hcontra, fun _ => rfl⟩
        · have : l = hist1 := (Option.some_inj.mp h2).symm
          rw [this]
          omega
    · have hfq' : isFantasyQuestion msg = false := by simpa using hfq
      rw [if_neg (by simp [hfq'])] at h2
      refine ⟨hist1, [], ?_, ha, ha0, ?_, ?_, ?_⟩
      · simpa using (Option.some_inj.mp h2).symm
      · intro hcontra; rw [haw'] at hcontra; exact absurd hcontra (by simp)
      · intro _
        exact ⟨fun hcontra => by rw [hfq'] at hcontra; simp at hcontra, fun _ => rfl⟩
      · have : l = hist1 := (Option.some_inj.mp h2).symm
        rw [this]
        omega

/-- Fantasy context with only a manual roster (C3 witness inputs). -/
def fcW3 : JObj :=
  [("my_team", .jarr [.jstr "Patrick Mahomes"]), ("interested_players", .jarr []),
   ("trade_history", .jarr [])]

/-- C3 witness: the amended theorem applied to a concrete fantasy-keyword
turn with no awaiting flag and no analysis context. -/
theorem c3_primer_injection_structure_witness :
    ∃ a b, ((buildPrimers "who should i start" fcW3 []).getD []) = a ++ b ∧
      (a = [] ∨ (a.length = 2 ∧ isAffirmative "who should i start" = true ∧
        ([] : JObj).isEmpty = false)) ∧
      ((isAffirmative "who should i start" && !([] : JObj).isEmpty) = false → a = []) ∧
      (truthyO (jget fcW3 "awaiting_team_selection") = true →
        b = teamSelectionPrimer "who should i start") ∧
      (truthyO (jget fcW3 "awaiting_team_selection") = false →
        ((isFantasyQuestion "who should i start" && hasFantasyContext fcW3) = true →
          buildFantasyPrimer fcW3 = some b ∧ b.length = 2) ∧
        ((isFantasyQuestion "who should i start" && hasFantasyContext fcW3) = false → b = [])) ∧
      ((buildPrimers "who should i start" fcW3 []).getD []).length ≤ 4 :=
  c3_primer_injection_structure "who should i start" fcW3 [] _ rfl

/-! ## Claim C6 -/

/-- C6: on a turn where `last_injury_check` is unset and
`fantasy_context.my_team` is non-empty, the injury scan runs and
`last_injury_check` is set to the current time — regardless of whether the
scan found updates (the conclusion does not depend on the feeds); and on a
turn less than 24 hours after the recorded timestamp, the scan does not
re-run and the timestamp is unchanged. -/
theorem c6_injury_gate_runs_once_per_day (env : Env) (script : List ModelResponse)
    (conv : Conversation) (msg : String) (fs : List String)
    (conv' : Conversation) (resp : String) (fs2 : List String)
    (hrun : chatRoute env script conv msg fs = some (conv', resp, fs2)) :
    (conv.last_injury_check = none →
      truthyO (jget conv.fantasy_context "my_team") = true →
      conv'.last_injury_check = some env.now) ∧
    (∀ t : Int, conv.last_injury_check = some t → env.now - t < 86400 →
      conv'.last_injury_check = some t) := by
  by_cases hmsg : msg = ""
  · rw [chatRoute, if_pos hmsg] at hrun
    exact absurd hrun (by simp)
  · rw [chatRoute, if_neg hmsg] at hrun
    constructor
    · intro hnone hmy
      rw [hnone] at hrun
      rcases hic : injuryCheckStep env none conv.fantasy_context with ⟨m, last2⟩
      have hl2 : last2 = some env.now := by
        have h2 : (injuryCheckStep env none conv.fantasy_context).2 = some env.now := by
          simp [injuryCheckStep, hmy]
        rw [hic] at h2
        exact h2
      rw [hic] at hrun
      dsimp only at hrun
      obtain ⟨primers, hp, hrun⟩ := Option.bind_eq_some.mp hrun
      obtain ⟨⟨r1, r2, r3, r4⟩, hc, hrun⟩ := Option.bind_eq_some.mp hrun
      obtain rfl : _ = conv' := congrArg (fun x => x.1) (Option.some_inj.mp hrun)
      exact hl2
    · intro t ht hlt
      rw [ht] at hrun
      have hm : injuryCheckStep env (some t) conv.fantasy_context = (none, some t) := by
        have hdec : (decide (env.now - t ≥ 86400)) = false := by
          rw [decide_eq_false_iff_not]
          omega
        simp only [injuryCheckStep, hdec, Bool.false_and, Bool.false_eq_true, if_false]
      rw [hm] at hrun
      dsimp only at hrun
      obtain ⟨primers, hp, hrun⟩ := Option.bind_eq_some.mp hrun
      obtain ⟨⟨r1, r2, r3, r4⟩, hc, hrun⟩ := Option.bind_eq_some.mp hrun
      obtain rfl : _ = conv' := congrArg (fun x => x.1) (Option.some_inj.mp hrun)
      rfl

/-- Fresh conversation with a manual roster entry (C6 witness inputs). -/
def convW6 : Conversation :=
  { freshConversation with
    fantasy_context :=
      [("my_team", .jarr [.jstr "Patrick Mahomes"]), ("interested_players", .jarr []),
       ("trade_history", .jarr [])] }

/-- Environment at time 1000 with no reachable feeds (the scan finds
nothing — the timestamp must still be set). -/
def cenvW6 : Env := { cenvBase with now := 1000 }

/-- C6 witness: the theorem applied to a concrete first-contact run (the
scan finds no updates, the timestamp is set anyway) and to a concrete
second run 1 hour later (timestamp unchanged). -/
theorem c6_injury_gate_runs_once_per_day_witness :
    (∃ conv' resp fs2,
      chatRoute cenvW6 [respDone] convW6 "hello there" [] = some (conv', resp, fs2) ∧
      conv'.last_injury_check = some 1000) ∧
    (∃ conv' resp fs2,
      chatRoute { cenvW6 with now := 4600 } [respDone]
        { convW6 with last_injury_check := some 1000 } "hello there" [] =
          some (conv', resp, fs2) ∧
      conv'.last_injury_check = some 1000) := by
  constructor
  · obtain ⟨conv', resp, fs2, hrun⟩ :
        ∃ conv' resp fs2, chatRoute cenvW6 [respDone] convW6 "hello there" [] =
          some (conv', resp, fs2) := ⟨_, _, _, rfl⟩
    exact ⟨conv', resp, fs2, hrun,
      (c6_injury_gate_runs_once_per_day cenvW6 [respDone] convW6 "hello there" []
        conv' resp fs2 hrun).1 rfl rfl⟩
  · obtain ⟨conv', resp, fs2, hrun⟩ :
        ∃ conv' resp fs2, chatRoute { cenvW6 with now := 4600 } [respDone]
          { convW6 with last_injury_check := some 1000 } "hello there" [] =
            some (conv', resp, fs2) := ⟨_, _, _, rfl⟩
    exact ⟨conv', resp, fs2, hrun,
      (c6_injury_gate_runs_once_per_day { cenvW6 with now := 4600 } [respDone]
        { convW6 with last_injury_check := some 1000 } "hello there" []
        conv' resp fs2 hrun).2 1000 rfl (by decide)⟩

/-! ## Claim C10 -/

/-- The extraction merge touches only the three roster-list keys. -/
theorem mergeExtract_preserves (d fc fc' : JObj) (h : mergeExtract d fc = some fc')
    (k : String) (h1 : ¬ "my_team" = k) (h2 : ¬ "interested_players" = k)
    (h3 : ¬ "trade_history" = k) : jget fc' k = jget fc k := by
  simp only [mergeExtract] at h
  split at h
  · obtain rfl := (Option.some_inj.mp h)
    rw [jget_jset_ne _ _ _ _ h3, jget_jset_ne _ _ _ _ h2,
      jget_jset_ne _ _ _ _ h1]
  · simp at h

/-- The credential block persists every regex hit under its key, whatever
the secondary extraction call returns. -/
theorem extractBlock_persists_creds (env : Env) (msg : String) (fc : JObj) :
    (∀ v, leagueIdSearch msg = some v →
      jget (extractBlock env msg fc) "espn_league_id" = some (.jstr v)) ∧
    (∀ v, s2Search msg = some v →
      jget (extractBlock env msg fc) "espn_s2" = some (.jstr v)) ∧
    (∀ v, swidSearch msg = some v →
      jget (extractBlock env msg fc) "espn_swid" = some (.jstr v)) := by
  have tail : ∀ (fcS : JObj) (k : String), ¬ "my_team" = k → ¬ "interested_players" = k →
      ¬ "trade_history" = k →
      jget (match env.extract with
        | none => fcS
        | some d => (mergeExtract d fcS).getD fcS) k = jget fcS k := by
    intro fcS k hk1 hk2 hk3
    cases env.extract with
    | none => rfl
    | some d =>
      cases hm : mergeExtract d fcS with
      | none => dsimp only; rw [hm]; rfl
      | some merged =>
        dsimp only
        rw [hm]
        simpa using mergeExtract_preserves d fcS merged hm k hk1 hk2 hk3
  refine ⟨?_, ?_, ?_⟩
  · intro v hv
    rcases hsm : s2Search msg with _ | s2v <;> rcases hwm : swidSearch msg with _ | swv <;>
      · simp only [extractBlock, hv, hsm, hwm]
        rw [tail _ _ (by decide) (by decide) (by decide)]
        simp only [Option.isSome_some, Bool.true_or, if_pos]
        first
        | exact jget_jset_same _ _ _
        | rw [jget_jset_ne _ _ _ _ (by decide)]
          first
          | exact jget_jset_same _ _ _
          | rw [jget_jset_ne _ _ _ _ (by decide)]
            exact jget_jset_same _ _ _
  · intro v hv
    rcases hlm : leagueIdSearch msg with _ | lv <;> rcases hwm : swidSearch msg with _ | swv <;>
      · simp only [extractBlock, hv, hlm, hwm]
        rw [tail _ _ (by decide) (by decide) (by decide)]
        simp only [Option.isSome_some, Bool.true_or, Bool.or_true, if_pos]
        first
        | exact jget_jset_same _ _ _
        | rw [jget_jset_ne _ _ _ _ (by decide)]
          exact jget_jset_same _ _ _
  · intro v hv
    rcases hlm : leagueIdSearch msg with _ | lv <;> rcases hsm : s2Search msg with _ | s2v <;>
      · simp only [extractBlock, hv, hlm, hsm]
        rw [tail _ _ (by decide) (by decide) (by decide)]
        simp only [Option.isSome_some, Bool.true_or, Bool.or_true, if_pos]
        exact jget_jset_same _ _ _

/-- C10: on every fantasy-keyword turn, credentials found by the three
regexes in the raw user message are persisted in the final
`fantasy_context` under `espn_league_id` / `espn_s2` / `espn_swid`,
for every environment and model script — hence independent of the
assistant's answer, of whether any tool ran, and of what the secondary
extraction call returns. -/
theorem c10_credentials_regex_persisted (env : Env) (script : List ModelResponse)
    (conv : Conversation) (msg : String) (fs : List String)
    (conv' : Conversation) (resp : String) (fs2 : List String)
    (hrun : chatRoute env script conv msg fs = some (conv', resp, fs2))
    (hfq : isFantasyQuestion msg = true) :
    (∀ v, leagueIdSearch msg = some v →
      jget conv'.fantasy_context "espn_league_id" = some (.jstr v)) ∧
    (∀ v, s2Search msg = some v →
      jget conv'.fantasy_context "espn_s2" = some (.jstr v)) ∧
    (∀ v, swidSearch msg = some v →
      jget conv'.fantasy_context "espn_swid" = some (.jstr v)) := by
  by_cases hmsg : msg = ""
  · rw [chatRoute, if_pos hmsg] at hrun
    exact absurd hrun (by simp)
  · rw [chatRoute, if_neg hmsg] at hrun
    rcases hic : injuryCheckStep env conv.last_injury_check conv.fantasy_context with ⟨m, last2⟩
    rw [hic] at hrun
    dsimp only at hrun
    obtain ⟨primers, hp, hrun⟩ := Option.bind_eq_some.mp hrun
    obtain ⟨⟨r1, r2, r3, r4⟩, hc, hrun⟩ := Option.bind_eq_some.mp hrun
    obtain rfl : _ = conv' := congrArg (fun x => x.1) (Option.some_inj.mp hrun)
    show _ ∧ _ ∧ _
    simp only [hfq, if_pos]
    exact extractBlock_persists_creds env msg
      (postFantasyUpdate env.now r3 conv.fantasy_context)

/-- C10 witness: a concrete fantasy-keyword turn carrying a league id in
the raw message; the run completes and the id is persisted. -/
theorem c10_credentials_regex_persisted_witness :
    ∃ conv' resp fs2,
      chatRoute cenvBase [respDone] freshConversation
        "my fantasy league id is 123456" [] = some (conv', resp, fs2) ∧
      jget conv'.fantasy_context "espn_league_id" = some (.jstr "123456") := by
  obtain ⟨conv', resp, fs2, hrun⟩ :
      ∃ conv' resp fs2, chatRoute cenvBase [respDone] freshConversation
        "my fantasy league id is 123456" [] = some (conv', resp, fs2) := ⟨_, _, _, rfl⟩
  exact ⟨conv', resp, fs2, hrun,
    (c10_credentials_regex_persisted cenvBase [respDone] freshConversation
      "my fantasy league id is 123456" [] conv' resp fs2 hrun rfl).1 "123456" rfl⟩

/-! ## Claim C5 -/

/-- A model response requesting the analytics tool for a WR. -/
def respAnalyze : ModelResponse :=
  { stop_reason := "tool_use",
    content := [.rToolUse "T1" "analyze_player_routes_plays"
      [("player_name", .jstr "Travis Kelce"), ("position", .jstr "WR")]] }

/-- Whether a message log starts with the analysis-context primer. -/
def headIsAnalysisCtx (l : List Message) : Bool :=
  match l with
  | ⟨"user", .mstr s⟩ :: _ =>
      leadSeg "RECENT ROUTE/PLAY ANALYSIS CONTEXT:".toList s.toList
  | _ => false

/-- C5 counterexample: turn 1 runs the analytics tool (storing the
context); turn 2 ("tell me about the chiefs") neither re-runs the tool
nor is a short affirmative — and leaves `recent_analysis_context`
UNCHANGED; the later short affirmative "yes" on turn 3 still receives the
analysis primer, so the stored context is durable across intervening
turns, contradicting "enables the primer on the immediately following
turn only". -/
theorem c5_counterexample :
    ((chatRoute cenvBase [respAnalyze, respDone] freshConversation
        "analyze Travis Kelce routes" []).bind (fun o1 =>
      (chatRoute cenvBase [respDone] o1.1 "tell me about the chiefs" o1.2.2).bind (fun o2 =>
        (chatRoute cenvBase [respDone] o2.1 "yes" o2.2.2).map (fun o3 =>
          (o2.1.recent_analysis_context.map (fun p => p.1) ==
            o1.1.recent_analysis_context.map (fun p => p.1)) &&
          !o1.1.recent_analysis_context.isEmpty &&
          headIsAnalysisCtx o3.1.history &&
          o3.1.recent_analysis_context.isEmpty)))) = some true := by
  rfl

/-- C5 (amended): a turn that runs the analytics tool overwrites
`recent_analysis_context` with the turn's tool-usage record; a turn that
does not run it clears the context only when the message is a short
affirmative and the stored context is non-empty (the consuming turn);
otherwise the context is preserved unchanged — it remains available to
ANY later short affirmative until consumed or overwritten, not just the
immediately following turn. -/
theorem c5_analysis_context_transition (env : Env) (script : List ModelResponse)
    (conv : Conversation) (msg : String) (fs : List String)
    (conv' : Conversation) (resp : String) (fs2 : List String)
    (hrun : chatRoute env script conv msg fs = some (conv', resp, fs2)) :
    ∃ primers out,
      buildPrimers msg conv.fantasy_context conv.recent_analysis_context = some primers ∧
      chat env script msg primers conv.fantasy_context fs = some out ∧
      conv'.recent_analysis_context =
        (if truthyO (jget out.2.2.1 "used_analyze_player_routes_plays") then out.2.2.1
         else if isAffirmative msg && !conv.recent_analysis_context.isEmpty then ([] : JObj)
         else conv.recent_analysis_context) := by
  by_cases hmsg : msg = ""
  · rw [chatRoute, if_pos hmsg] at hrun
    exact absurd hrun (by simp)
  · rw [chatRoute, if_neg hmsg] at hrun
    rcases hic : injuryCheckStep env conv.last_injury_check conv.fantasy_context with ⟨m, last2⟩
    rw [hic] at hrun
    dsimp only at hrun
    obtain ⟨primers, hp, hrun⟩ := Option.bind_eq_some.mp hrun
    obtain ⟨⟨r1, r2, r3, r4⟩, hc, hrun⟩ := Option.bind_eq_some.mp hrun
    obtain rfl : _ = conv' := congrArg (fun x => x.1) (Option.some_inj.mp hrun)
    exact ⟨primers, (r1, r2, r3, r4), hp, hc, rfl⟩

/-- C5 witness: the amended theorem applied to a concrete turn that
neither runs the tool nor is affirmative — the context is preserved. -/
theorem c5_analysis_context_transition_witness :
    ∃ conv' resp fs2,
      chatRoute cenvBase [respDone] freshConversation "hello there" [] =
        some (conv', resp, fs2) ∧
      ∃ primers out,
        buildPrimers "hello there" freshConversation.fantasy_context
          freshConversation.recent_analysis_context = some primers ∧
        chat cenvBase [respDone] "hello there" primers
          freshConversation.fantasy_context [] = some out ∧
        conv'.recent_analysis_context =
          (if truthyO (jget out.2.2.1 "used_analyze_player_routes_plays") then out.2.2.1
           else if isAffirmative "hello there" &&
               !freshConversation.recent_analysis_context.isEmpty then ([] : JObj)
           else freshConversation.recent_analysis_context) := by
  obtain ⟨conv', resp, fs2, hrun⟩ :
      ∃ conv' resp fs2, chatRoute cenvBase [respDone] freshConversation "hello there" [] =
        some (conv', resp, fs2) := ⟨_, _, _, rfl⟩
  exact ⟨conv', resp, fs2, hrun,
    c5_analysis_context_transition cenvBase [respDone] freshConversation "hello there" []
      conv' resp fs2 hrun⟩

end SportsAI


